import Mathlib

/-!
Verification of the Signal Lifecycle & Risk Engine.

Shallow embedding of the signal-generation, risk-management, conflict-resolution,
tick-driven tracking, and tactical-assistant code over exact rational arithmetic.
Prices, percentages and scores are modelled as `ℚ` (or `ℕ` for integer scores);
JavaScript `Math.round` is modelled exactly; JavaScript truthiness of numeric
and nullable fields (`x || default`, `if (x) ...`) is modelled explicitly where
the source relies on it.  Definitions come first, theorems at the end of the
file.
-/

/-- JavaScript `Math.round`: round half toward positive infinity. -/
def jsRound (x : ℚ) : ℤ := ⌊x + 1/2⌋

/-- Round to 4 decimal places, as `Math.round(x * 10000) / 10000` in the source. -/
def round4 (x : ℚ) : ℚ := (jsRound (x * 10000) : ℚ) / 10000

/-- Round to 2 decimal places, as `toFixed(2)` / `Math.round(x * 100) / 100`. -/
def round2 (x : ℚ) : ℚ := (jsRound (x * 100) : ℚ) / 100

/-- Trade direction of a signal (`signalType` in the source). -/
inductive Direction where
  | BUY
  | SELL
deriving DecidableEq, Repr

/-- Three-valued signal action (`'BUY' | 'SELL' | 'HOLD'`). -/
inductive Tri where
  | BUY
  | SELL
  | HOLD
deriving DecidableEq, Repr

namespace Consolidated

/-- Timeframe labels used by `ConsolidatedSignalGenerator`. -/
inductive Timeframe where
  | SCALP
  | DAY
  | SWING
deriving DecidableEq, Repr

/-- Result of `ConsolidatedSignalGenerator.calculateRiskLevels`. -/
structure RiskLevels where
  stopLossPrice : ℚ
  takeProfitPrice : ℚ
  riskReward : ℚ
deriving DecidableEq, Repr

/-- Stop-loss multiplier per timeframe (`timeframeMultipliers[..].sl`). -/
def slMultiplier : Timeframe → ℚ
  | .SCALP => 8/10
  | .DAY => 1
  | .SWING => 12/10

/-- Take-profit multiplier per timeframe (`timeframeMultipliers[..].tp`). -/
def tpMultiplier : Timeframe → ℚ
  | .SCALP => 25/10
  | .DAY => 3
  | .SWING => 35/10

/-- Embedding of `ConsolidatedSignalGenerator.calculateRiskLevels`
(consolidatedSignalGenerator.ts lines 318-343).  Note that the source function
takes no direction argument: the returned levels are always placed with the
stop loss below and the take profit above the entry price. -/
def calculateRiskLevels (entryPrice confidence volatility : ℚ) (timeframe : Timeframe) :
    RiskLevels :=
  let baseStopLoss := max (15/1000) (volatility * (15/10))
  let confidenceMultiplier := confidence / 100
  let stopLossPercent := baseStopLoss * slMultiplier timeframe
  let takeProfitPercent := stopLossPercent * tpMultiplier timeframe * confidenceMultiplier
  { stopLossPrice := entryPrice * (1 - stopLossPercent)
    takeProfitPrice := entryPrice * (1 + takeProfitPercent)
    riskReward := (jsRound (takeProfitPercent / stopLossPercent * 100) : ℚ) / 100 }

/-- `MIN_CONFIDENCE` of `ConsolidatedSignalGenerator`. -/
def MIN_CONFIDENCE : ℚ := 75

/-- `MIN_RISK_REWARD` of `ConsolidatedSignalGenerator`. -/
def MIN_RISK_REWARD : ℚ := 5/2

end Consolidated

namespace Technical

/-- Result of `TechnicalAnalysisService.generateTradeLevels`. -/
structure TradeLevels where
  entry : ℚ
  takeProfit : ℚ
  stopLoss : ℚ
deriving DecidableEq, Repr

/-- Embedding of `TechnicalAnalysisService.generateTradeLevels`
(part_007 lines 61-82): direction-aware levels, rounded to 4 decimals. -/
def generateTradeLevels (price : ℚ) (direction : Direction) (tpPercent slPercent : ℚ) :
    TradeLevels :=
  { entry := round4 price
    takeProfit :=
      match direction with
      | .BUY => round4 (price * (1 + tpPercent / 100))
      | .SELL => round4 (price * (1 - tpPercent / 100))
    stopLoss :=
      match direction with
      | .BUY => round4 (price * (1 - slPercent / 100))
      | .SELL => round4 (price * (1 + slPercent / 100)) }

/-- Market-structure trend labels. -/
inductive MsTrend where
  | UPTREND
  | DOWNTREND
  | SIDEWAYS
deriving DecidableEq, Repr

/-- Market-structure volatility labels. -/
inductive Volatility where
  | HIGH
  | MEDIUM
  | LOW
deriving DecidableEq, Repr

/-- Market-regime type labels. -/
inductive RegimeType where
  | TRENDING
  | RANGING
deriving DecidableEq, Repr

/-- Regime-recommended strategy labels. -/
inductive Strategy where
  | BREAKOUT
  | PULLBACK
  | REVERSAL
  | SCALP
deriving DecidableEq, Repr

/-- The feature values that `generateSignal` (part_007 lines 297-499) computes
from the price history before scoring; the scoring and confidence logic is a
pure function of these. -/
structure SignalInputs where
  rsi : ℚ
  macd : ℚ
  macdSignal : ℚ
  currentPrice : ℚ
  sma20 : ℚ
  ema50 : ℚ
  bollingerUpper : ℚ
  bollingerLower : ℚ
  trendDirection : ℚ
  priceChange : ℚ
  msTrend : MsTrend
  msSupport : ℚ
  msResistance : ℚ
  msVolatility : Volatility
  mtfAlignment : Bool
  regimeType : RegimeType
  regimeStrength : ℚ
  volumeConfirmation : Bool
  trapDetected : Bool
  strategy : Strategy
deriving DecidableEq, Repr

/-- RSI scoring ladder (part_007 lines 340-352): (bullish, bearish) points. -/
def rsiScores (rsi : ℚ) : ℕ × ℕ :=
  if rsi < 30 then (25, 0)
  else if rsi < 40 then (15, 0)
  else if rsi > 70 then (0, 25)
  else if rsi > 60 then (0, 15)
  else (0, 0)

/-- MACD crossover scoring (part_007 lines 354-362). -/
def macdScores (macd macdSignal : ℚ) : ℕ × ℕ :=
  let macdHistogram := macd - macdSignal
  if macd > macdSignal ∧ macdHistogram > 0 then (20, 0)
  else if macd < macdSignal ∧ macdHistogram < 0 then (0, 20)
  else (0, 0)

/-- Moving-average confluence scoring (part_007 lines 364-371). -/
def maScores (currentPrice sma20 ema50 : ℚ) : ℕ × ℕ :=
  if currentPrice > sma20 ∧ currentPrice > ema50 ∧ sma20 > ema50 then (15, 0)
  else if currentPrice < sma20 ∧ currentPrice < ema50 ∧ sma20 < ema50 then (0, 15)
  else (0, 0)

/-- Bollinger-band position scoring (part_007 lines 373-381).  The source
computes `(price − lower) / (upper − lower)`; when the band has zero width the
JavaScript quotient is `±Infinity` (or `NaN` for `price = lower`), handled by
the first branch. -/
def bbScores (currentPrice lower upper : ℚ) : ℕ × ℕ :=
  if upper = lower then
    if currentPrice < lower then (20, 0)
    else if currentPrice > lower then (0, 20)
    else (0, 0)
  else
    let bbPosition := (currentPrice - lower) / (upper - lower)
    if bbPosition < 1/10 then (20, 0)
    else if bbPosition > 9/10 then (0, 20)
    else (0, 0)

/-- Trend-momentum scoring (part_007 lines 383-390). -/
def momentumScores (trendDirection priceChange : ℚ) : ℕ × ℕ :=
  if trendDirection > 2/10 ∧ priceChange > 1/10 then (10, 0)
  else if trendDirection < -(2/10) ∧ priceChange < -(1/10) then (0, 10)
  else (0, 0)

/-- Market-structure alignment scoring (part_007 lines 392-397). -/
def structureScores (msTrend : MsTrend) (currentPrice support resistance : ℚ) : ℕ × ℕ :=
  if msTrend = .UPTREND ∧ currentPrice > support then (10, 0)
  else if msTrend = .DOWNTREND ∧ currentPrice < resistance then (0, 10)
  else (0, 0)

/-- Total bullish score of `generateSignal`. -/
def bullishScore (i : SignalInputs) : ℕ :=
  (rsiScores i.rsi).1 + (macdScores i.macd i.macdSignal).1 +
  (maScores i.currentPrice i.sma20 i.ema50).1 +
  (bbScores i.currentPrice i.bollingerLower i.bollingerUpper).1 +
  (momentumScores i.trendDirection i.priceChange).1 +
  (structureScores i.msTrend i.currentPrice i.msSupport i.msResistance).1

/-- Total bearish score of `generateSignal`. -/
def bearishScore (i : SignalInputs) : ℕ :=
  (rsiScores i.rsi).2 + (macdScores i.macd i.macdSignal).2 +
  (maScores i.currentPrice i.sma20 i.ema50).2 +
  (bbScores i.currentPrice i.bollingerLower i.bollingerUpper).2 +
  (momentumScores i.trendDirection i.priceChange).2 +
  (structureScores i.msTrend i.currentPrice i.msSupport i.msResistance).2

/-- The decision part of a `SignalResult`: direction, the technical confidence
entering the confirmation adjustments, and the final adjusted confidence. -/
structure SignalDecision where
  signalType : Tri
  bullish : ℕ
  bearish : ℕ
  scoreDifference : ℕ
  technicalConfidence : ℕ
  confidence : ℕ
deriving DecidableEq, Repr

/-- Embedding of the decision logic of `TechnicalAnalysisService.generateSignal`
(part_007 lines 399-482): signal/confidence from the score gap (threshold 20,
base 40 + gap, cap 85), −15 for high volatility (floor 30), HOLD below 70,
then the confirmation adjustments (+10 multi-timeframe alignment, +5 strong
trending regime, +5 volume confirmation, −15 liquidity trap, +5 reversal in a
ranging market) and the final cap at 95. -/
def generateSignalDecision (i : SignalInputs) : SignalDecision :=
  let b := bullishScore i
  let s := bearishScore i
  let scoreDifference := max b s - min b s
  let first : Tri × ℕ :=
    if b > s ∧ scoreDifference ≥ 20 then (.BUY, min (40 + scoreDifference) 85)
    else if s > b ∧ scoreDifference ≥ 20 then (.SELL, min (40 + scoreDifference) 85)
    else (.HOLD, 30 + max b s)
  let conf1 := if i.msVolatility = .HIGH then max (first.2 - 15) 30 else first.2
  let ty1 := if conf1 < 70 then Tri.HOLD else first.1
  let a1 := conf1 + (if i.mtfAlignment then 10 else 0)
  let a2 := a1 + (if i.regimeType = .TRENDING ∧ i.regimeStrength > 70 then 5 else 0)
  let a3 := a2 + (if i.volumeConfirmation then 5 else 0)
  let a4 := a3 - (if i.trapDetected then 15 else 0)
  let a5 := a4 + (if i.strategy = .REVERSAL ∧ ty1 ≠ .HOLD ∧
      ((ty1 = .BUY ∧ i.rsi < 30) ∨ (ty1 = .SELL ∧ i.rsi > 70)) then 5 else 0)
  { signalType := ty1, bullish := b, bearish := s, scoreDifference := scoreDifference
    technicalConfidence := conf1, confidence := min a5 95 }

end Technical

namespace RiskMgmt

/-- The fields of `RiskManagementConfig` that the risk calculations read. -/
structure Config where
  maxRiskPerTrade : ℚ
  riskRewardRatio : ℚ
  maxConsecutiveLosses : ℕ
  maxDrawdown : ℚ
deriving DecidableEq, Repr

/-- The default configuration of `RiskManagementService` (riskManagement.ts
lines 29-45): 1.5% max risk, 2.5 minimum risk-reward, 15% max drawdown. -/
def defaultConfig : Config :=
  { maxRiskPerTrade := 3/2, riskRewardRatio := 5/2, maxConsecutiveLosses := 3, maxDrawdown := 15 }

/-- The mutable statistics of `RiskManagementService` (the RiskProfile). -/
structure Stats where
  consecutiveLosses : ℕ
  totalTrades : ℕ
  winningTrades : ℕ
  totalPnL : ℚ
  currentDrawdown : ℚ
  maxDrawdownReached : ℚ
deriving DecidableEq, Repr

/-- Fresh statistics: all counters zero, as on service construction. -/
def initialStats : Stats :=
  { consecutiveLosses := 0, totalTrades := 0, winningTrades := 0, totalPnL := 0,
    currentDrawdown := 0, maxDrawdownReached := 0 }

/-- Embedding of `getConfidenceBasedRisk` (riskManagement.ts lines 124-131)
with the default `riskPercentPerConfidence` table. -/
def getConfidenceBasedRisk (confidence : ℚ) : ℚ :=
  if confidence ≥ 90 then 3/2
  else if confidence ≥ 80 then 6/5
  else if confidence ≥ 75 then 1
  else if confidence ≥ 70 then 4/5
  else if confidence ≥ 60 then 1/2
  else 3/10

/-- Embedding of `getConsecutiveLossAdjustment` (riskManagement.ts lines 152-158). -/
def getConsecutiveLossAdjustment (s : Stats) : ℚ :=
  if s.consecutiveLosses = 0 then 1
  else if s.consecutiveLosses = 1 then 9/10
  else if s.consecutiveLosses = 2 then 4/5
  else 3/5

/-- Embedding of `calculateBaseStopLoss` (riskManagement.ts lines 136-147):
symbol-specific base distance, defaulting to 1.0, scaled by volatility. -/
def calculateBaseStopLoss (symbol : String) (volatility : ℚ) : ℚ :=
  (if symbol = "R_10" then 8/10
   else if symbol = "R_25" then 1
   else if symbol = "R_75" then 12/10
   else if symbol = "RDBULL" then 3/2
   else if symbol = "RDBEAR" then 3/2
   else 1) * volatility

/-- Result of `calculateEnhancedRiskParams`. -/
structure EnhancedRiskParams where
  entryPrice : ℚ
  stopLossPrice : ℚ
  takeProfitPrice : ℚ
  positionSize : ℚ
  riskAmount : ℚ
  rewardAmount : ℚ
  riskRewardRatio : ℚ
  maxLossPercentage : ℚ
  maxGainPercentage : ℚ
  confidenceAdjustment : ℚ
deriving DecidableEq, Repr

/-- Embedding of `RiskManagementService.calculateEnhancedRiskParams`
(riskManagement.ts lines 57-119). -/
def calculateEnhancedRiskParams (cfg : Config) (s : Stats) (symbol : String)
    (signalType : Direction) (entryPrice confidence volatility accountBalance : ℚ) :
    EnhancedRiskParams :=
  let confidenceRisk := getConfidenceBasedRisk confidence
  let consecutiveLossAdjustment := getConsecutiveLossAdjustment s
  let finalRiskPercent := confidenceRisk * consecutiveLossAdjustment
  let riskAmount := accountBalance * finalRiskPercent / 100
  let rewardAmount := riskAmount * cfg.riskRewardRatio
  let baseStopLossPercent := calculateBaseStopLoss symbol volatility
  let stopLossPercent := min baseStopLossPercent (finalRiskPercent * (8/10))
  let takeProfitPercent := stopLossPercent * cfg.riskRewardRatio
  let stopLossPrice :=
    if signalType = .BUY then entryPrice * (1 - stopLossPercent / 100)
    else entryPrice * (1 + stopLossPercent / 100)
  let takeProfitPrice :=
    if signalType = .BUY then entryPrice * (1 + takeProfitPercent / 100)
    else entryPrice * (1 - takeProfitPercent / 100)
  { entryPrice := entryPrice
    stopLossPrice := stopLossPrice
    takeProfitPrice := takeProfitPrice
    positionSize := riskAmount / |entryPrice - stopLossPrice|
    riskAmount := riskAmount
    rewardAmount := rewardAmount
    riskRewardRatio := cfg.riskRewardRatio
    maxLossPercentage := stopLossPercent
    maxGainPercentage := takeProfitPercent
    confidenceAdjustment := consecutiveLossAdjustment }

/-- Embedding of `RiskManagementService.updateTradeResult`
(riskManagement.ts lines 174-192). -/
def updateTradeResult (s : Stats) (pnl : ℚ) (isWin : Bool) : Stats :=
  let s1 := { s with totalTrades := s.totalTrades + 1, totalPnL := s.totalPnL + pnl }
  let s2 :=
    if isWin then { s1 with winningTrades := s1.winningTrades + 1, consecutiveLosses := 0 }
    else { s1 with consecutiveLosses := s1.consecutiveLosses + 1 }
  if pnl < 0 then
    let cd := s2.currentDrawdown + |pnl|
    { s2 with currentDrawdown := cd, maxDrawdownReached := max s2.maxDrawdownReached cd }
  else
    { s2 with currentDrawdown := max 0 (s2.currentDrawdown - pnl) }

/-- Embedding of `shouldStopTrading` (riskManagement.ts lines 197-200):
`(maxDrawdownReached / |totalPnL|) * 100 > maxDrawdown`.  When `totalPnL = 0`
the JavaScript division yields `Infinity` (drawdown positive, comparison true)
or `NaN` (drawdown zero, comparison false); both cases are modelled by the
first branch. -/
def shouldStopTrading (cfg : Config) (s : Stats) : Prop :=
  if s.totalPnL = 0 then 0 < s.maxDrawdownReached
  else s.maxDrawdownReached / |s.totalPnL| * 100 > cfg.maxDrawdown

instance (cfg : Config) (s : Stats) : Decidable (shouldStopTrading cfg s) := by
  unfold shouldStopTrading
  split <;> infer_instance

/-- Tags for the warning strings pushed by `validateSignalRisk`. -/
inductive Warning where
  | riskReward
  | maxLoss
  | consecutiveLosses
  | lowConfidence
  | drawdownStop
deriving DecidableEq, Repr

/-- Result of `validateSignalRisk`. -/
structure Validation where
  isValid : Bool
  warnings : List Warning
deriving DecidableEq, Repr

/-- Embedding of `RiskManagementService.validateSignalRisk`
(riskManagement.ts lines 304-348).  The risk-reward check compares against the
hard-coded constant 2.0 and the per-trade loss check against the hard-coded
constant 2.0%, independent of the configured `riskRewardRatio`. -/
def validateSignalRisk (cfg : Config) (s : Stats) (signalConfidence : ℚ)
    (rp : EnhancedRiskParams) : Validation :=
  { isValid :=
      if rp.riskRewardRatio < 2 ∨ rp.maxLossPercentage > 2 ∨ shouldStopTrading cfg s
      then false else true
    warnings :=
      (if rp.riskRewardRatio < 2 then [Warning.riskReward] else []) ++
      (if rp.maxLossPercentage > 2 then [Warning.maxLoss] else []) ++
      (if 3 ≤ s.consecutiveLosses then [Warning.consecutiveLosses] else []) ++
      (if signalConfidence < 75 then [Warning.lowConfidence] else []) ++
      (if shouldStopTrading cfg s then [Warning.drawdownStop] else []) }

end RiskMgmt

namespace Manager

/-- A persisted signal as seen by `SignalManager` and `storage`. -/
structure StoredSignal where
  id : ℕ
  symbol : String
  signalType : Direction
  entryPrice : ℚ
  confidence : ℤ
  priority : Option ℕ
  isActive : Bool
  replaced : Bool
  exitPrice : Option ℚ
deriving DecidableEq, Repr

/-- The candidate (`InsertSignal`) handed to `createSignalWithConflictPrevention`. -/
structure InsertSignal where
  symbol : String
  signalType : Direction
  entryPrice : ℚ
  confidence : ℤ
  priority : Option ℕ
deriving DecidableEq, Repr

/-- JavaScript `priority || 3`: an absent or zero priority defaults to 3. -/
def jsPriority : Option ℕ → ℕ
  | none => 3
  | some 0 => 3
  | some n => n

/-- One existing signal conflicts with the candidate
(`checkForConflicts` filter body, part_008 lines 130-149): same symbol and
either opposite direction, or same direction with entries within 1%
(`|existingEntry − newEntry| / existingEntry < 0.01`; for `existingEntry = 0`
the JavaScript quotient is `Infinity`/`NaN` and the test is false). -/
def conflictsWith (sd : InsertSignal) (existing : StoredSignal) : Prop :=
  existing.symbol = sd.symbol ∧
    (existing.signalType ≠ sd.signalType ∨
      (existing.entryPrice ≠ 0 ∧
        |existing.entryPrice - sd.entryPrice| / existing.entryPrice < 1/100))

instance (sd : InsertSignal) (existing : StoredSignal) : Decidable (conflictsWith sd existing) := by
  unfold conflictsWith
  infer_instance

/-- Embedding of `checkForConflicts` (part_008 lines 127-150): filter the
active signals by `conflictsWith`. -/
def checkForConflicts (active : List StoredSignal) (sd : InsertSignal) : List StoredSignal :=
  match active with
  | [] => []
  | s :: rest =>
      if conflictsWith sd s then s :: checkForConflicts rest sd
      else checkForConflicts rest sd

/-- The candidate beats one particular conflicting signal: strictly higher
confidence, or equal confidence with a strictly lower priority number
(loop body of `shouldCreateDespiteConflicts`, part_008 lines 158-171). -/
def beats (sd : InsertSignal) (c : StoredSignal) : Prop :=
  sd.confidence > c.confidence ∨
    (sd.confidence = c.confidence ∧ jsPriority sd.priority < jsPriority c.priority)

instance (sd : InsertSignal) (c : StoredSignal) : Decidable (beats sd c) := by
  unfold beats
  infer_instance

/-- Embedding of `shouldCreateDespiteConflicts` (part_008 lines 153-174): the
loop returns `true` as soon as the candidate beats ANY single conflicting
signal, and `false` only if it beats none of them. -/
def shouldCreateDespiteConflicts (sd : InsertSignal) : List StoredSignal → Bool
  | [] => false
  | c :: rest =>
      if beats sd c then true else shouldCreateDespiteConflicts sd rest

/-- Signal storage with an id counter for `storage.createSignal`. -/
structure Store where
  signals : List StoredSignal
  nextId : ℕ
deriving DecidableEq, Repr

/-- `storage.getActiveSignals`. -/
def getActiveSignals (st : Store) : List StoredSignal :=
  st.signals.filter (·.isActive)

/-- `storage.updateSignal(id, {isActive: false, result: REPLACED, exitPrice})`
as invoked by `deactivateConflictingSignals`. -/
def deactivateOne (st : Store) (id : ℕ) (exitP : ℚ) : Store :=
  { st with
    signals := st.signals.map fun s =>
      if s.id = id then
        { s with isActive := false, replaced := true, exitPrice := some exitP }
      else s }

/-- Embedding of `deactivateConflictingSignals` (part_008 lines 177-187):
every conflicting signal is deactivated with a REPLACED result, closed at its
own entry price. -/
def deactivateConflictingSignals (conflicts : List StoredSignal) (st : Store) : Store :=
  conflicts.foldl (fun acc c => deactivateOne acc c.id c.entryPrice) st

/-- The priority assigned by `categorizeSignal` (part_008 lines 190-228). -/
def categorizePriority (confidence : ℤ) : ℕ :=
  if confidence ≥ 85 then 1
  else if confidence ≥ 75 then 2
  else 3

/-- `storage.createSignal`: append the categorized signal with a fresh id. -/
def createSignal (st : Store) (sd : InsertSignal) : StoredSignal × Store :=
  let s : StoredSignal :=
    { id := st.nextId, symbol := sd.symbol, signalType := sd.signalType
      entryPrice := sd.entryPrice, confidence := sd.confidence
      priority := some (categorizePriority sd.confidence)
      isActive := true, replaced := false, exitPrice := none }
  (s, { signals := st.signals ++ [s], nextId := st.nextId + 1 })

/-- Embedding of `SignalManager.createSignalWithConflictPrevention`
(part_008 lines 46-124): risk validation first (reject with no mutation on
failure), then conflict detection, then the despite-conflicts test (reject
with no mutation on failure), then deactivation of all conflicting signals,
then categorization and persistence. -/
def createSignalWithConflictPrevention (cfg : RiskMgmt.Config) (rs : RiskMgmt.Stats)
    (st : Store) (sd : InsertSignal) : Option StoredSignal × Store :=
  let riskParams := RiskMgmt.calculateEnhancedRiskParams cfg rs sd.symbol sd.signalType
    sd.entryPrice (sd.confidence : ℚ) 1 10000
  let validation := RiskMgmt.validateSignalRisk cfg rs (sd.confidence : ℚ) riskParams
  if validation.isValid = false then (none, st)
  else
    let conflicts := checkForConflicts (getActiveSignals st) sd
    match conflicts with
    | [] =>
        let (s, st1) := createSignal st sd
        (some s, st1)
    | c :: cs =>
        if shouldCreateDespiteConflicts sd (c :: cs) then
          let st1 := deactivateConflictingSignals (c :: cs) st
          let (s, st2) := createSignal st1 sd
          (some s, st2)
        else (none, st)

/-- Test fixture: an active BUY signal on V75 with confidence 90. -/
def exampleHigh : StoredSignal :=
  { id := 1, symbol := "V75", signalType := .BUY, entryPrice := 100, confidence := 90
    priority := some 2, isActive := true, replaced := false, exitPrice := none }

/-- Test fixture: an active BUY signal on V75 with confidence 60, entry 100.5. -/
def exampleLow : StoredSignal :=
  { id := 2, symbol := "V75", signalType := .BUY, entryPrice := 201/2, confidence := 60
    priority := some 3, isActive := true, replaced := false, exitPrice := none }

/-- Test fixture: a BUY candidate on V75 with confidence 70, entry 100.2 —
within 1% of both stored entries. -/
def exampleCandidate : InsertSignal :=
  { symbol := "V75", signalType := .BUY, entryPrice := 501/5, confidence := 70
    priority := none }

/-- Test fixture: the store holding both active signals. -/
def exampleStore : Store := { signals := [exampleHigh, exampleLow], nextId := 3 }

end Manager

namespace Tracker

/-- Outcome recorded when a tracked signal closes. -/
inductive Outcome where
  | WIN
  | LOSS
deriving DecidableEq, Repr

/-- Which level was hit. -/
inductive HitType where
  | TP
  | SL
deriving DecidableEq, Repr

/-- A signal as tracked by `SignalTracker`: take-profit and stop-loss levels
are nullable. -/
structure TSignal where
  id : ℕ
  symbol : String
  signalType : Direction
  entryPrice : ℚ
  takeProfitPrice : Option ℚ
  stopLossPrice : Option ℚ
  confidence : ℤ
  isActive : Bool
  result : Option Outcome
  pnl : Option ℚ
  exitPrice : Option ℚ
deriving DecidableEq, Repr

/-- JavaScript truthiness guard `if (level && cmp(level))`: a null level never
matches, and neither does a level equal to 0 (falsy number). -/
def optHit (level : Option ℚ) (ok : ℚ → Prop) : Prop :=
  match level with
  | none => False
  | some v => v ≠ 0 ∧ ok v

instance (ok : ℚ → Prop) [DecidablePred ok] :
    (level : Option ℚ) → Decidable (optHit level ok)
  | none => isFalse (by simp [optHit])
  | some v => decidable_of_iff (v ≠ 0 ∧ ok v) Iff.rfl

/-- The take-profit test of `checkSignalStatus` (riskManagement.ts lines
478-500): a BUY wins at `price ≥ TP`, a SELL wins at `price ≤ TP`. -/
def tpHit (s : TSignal) (price : ℚ) : Prop :=
  if s.signalType = .BUY then optHit s.takeProfitPrice (fun v => price ≥ v)
  else optHit s.takeProfitPrice (fun v => price ≤ v)

instance (s : TSignal) (price : ℚ) : Decidable (tpHit s price) := by
  unfold tpHit
  split <;> exact inferInstanceAs (Decidable (optHit _ _))

/-- The stop-loss test of `checkSignalStatus`: a BUY loses at `price ≤ SL`,
a SELL loses at `price ≥ SL`. -/
def slHit (s : TSignal) (price : ℚ) : Prop :=
  if s.signalType = .BUY then optHit s.stopLossPrice (fun v => price ≤ v)
  else optHit s.stopLossPrice (fun v => price ≥ v)

instance (s : TSignal) (price : ℚ) : Decidable (slHit s price) := by
  unfold slHit
  split <;> exact inferInstanceAs (Decidable (optHit _ _))

/-- The hit decision of `checkSignalStatus`: the take-profit branch is tested
before the stop-loss branch for either direction. -/
def checkHit (s : TSignal) (price : ℚ) : Option (Outcome × HitType) :=
  if tpHit s price then some (.WIN, .TP)
  else if slHit s price then some (.LOSS, .SL)
  else none

/-- The immutable record appended by `createSignalHistoryEntry`
(riskManagement.ts lines 548-570). -/
structure HistoryEntry where
  asset : String
  signalType : Direction
  entryPrice : ℚ
  exitPrice : ℚ
  takeProfitPrice : Option ℚ
  stopLossPrice : Option ℚ
  confidence : ℤ
  result : Outcome
  pnl : ℚ
  hitType : HitType
deriving DecidableEq, Repr

/-- The combined state touched by the tick-driven tracker: the tracked-signal
map, the persisted store, the outcome history, and the risk-management
statistics (the RiskProfile). -/
structure TrackerState where
  trackedSignals : List TSignal
  store : List TSignal
  history : List HistoryEntry
  riskProfile : RiskMgmt.Stats
deriving DecidableEq, Repr

/-- `trackedSignals.delete(id)`: remove every entry with the given id. -/
def removeId (id : ℕ) : List TSignal → List TSignal
  | [] => []
  | x :: rest => if x.id = id then removeId id rest else x :: removeId id rest

/-- `storage.updateSignal(id, {isActive: false, result, pnl, exitPrice})`. -/
def markClosed (id : ℕ) (res : Outcome) (pnlRounded exitP : ℚ) :
    List TSignal → List TSignal
  | [] => []
  | x :: rest =>
      (if x.id = id then
        { x with isActive := false, result := some res, pnl := some pnlRounded,
                 exitPrice := some exitP }
      else x) :: markClosed id res pnlRounded exitP rest

/-- The PnL formula of `closeSignal` (riskManagement.ts lines 516-521). -/
def pnlPercent (signalType : Direction) (entryPrice exitPrice : ℚ) : ℚ :=
  if signalType = .BUY then (exitPrice - entryPrice) / entryPrice * 100
  else (entryPrice - exitPrice) / entryPrice * 100

/-- Embedding of `SignalTracker.closeSignal` (riskManagement.ts lines
511-546): mark the stored signal closed, remove it from tracking, and append
one history record.  The risk profile is not touched by this function. -/
def closeSignal (st : TrackerState) (s : TSignal) (exitPrice : ℚ) (res : Outcome)
    (hit : HitType) : TrackerState :=
  let pnl := pnlPercent s.signalType s.entryPrice exitPrice
  { trackedSignals := removeId s.id st.trackedSignals
    store := markClosed s.id res (round2 pnl) exitPrice st.store
    history := st.history ++
      [{ asset := s.symbol, signalType := s.signalType, entryPrice := s.entryPrice
         exitPrice := exitPrice, takeProfitPrice := s.takeProfitPrice
         stopLossPrice := s.stopLossPrice, confidence := s.confidence
         result := res, pnl := pnl, hitType := hit }]
    riskProfile := st.riskProfile }

/-- Embedding of `SignalTracker.checkSignalStatus` (riskManagement.ts lines
468-509). -/
def checkSignalStatus (st : TrackerState) (s : TSignal) (price : ℚ) : TrackerState :=
  match checkHit s price with
  | some (res, hit) => closeSignal st s price res hit
  | none => st

/-- One iteration of the `processTickData` loop (riskManagement.ts lines
452-456): only signals for the tick symbol that are flagged active are
evaluated. -/
def tickStep (sym : String) (price : ℚ) (st : TrackerState) (s : TSignal) : TrackerState :=
  if s.symbol = sym ∧ s.isActive = true then checkSignalStatus st s price else st

/-- Embedding of `SignalTracker.processTickData` (riskManagement.ts lines
447-457): iterate over the tracked signals, closing each one whose level the
tick price hits. -/
def processTickData (st : TrackerState) (sym : String) (price : ℚ) : TrackerState :=
  st.trackedSignals.foldl (tickStep sym price) st

/-- A signal would be closed by a tick at this symbol and price. -/
def closes (sym : String) (price : ℚ) (s : TSignal) : Prop :=
  s.symbol = sym ∧ s.isActive = true ∧ (checkHit s price).isSome

end Tracker

namespace Tactical

/-- Health status labels. -/
inductive HealthState where
  | STRONG
  | WEAKENING
  | CRITICAL
  | INVALIDATED
deriving DecidableEq, Repr

/-- Alert types emitted by `checkAndGenerateAlerts`. -/
inductive AlertType where
  | INVALIDATED
  | WARNING
  | PROFIT_PROTECTION
deriving DecidableEq, Repr

/-- Alert urgency labels. -/
inductive Urgency where
  | LOW
  | MEDIUM
  | HIGH
deriving DecidableEq, Repr

/-- Profit tier labels of `calculateProfitProtection`. -/
inductive Tier where
  | NONE
  | SMALL
  | MEDIUM
  | LARGE
  | HUGE
deriving DecidableEq, Repr

/-- The signal fields read by the tactical assistant. -/
structure SignalInfo where
  id : ℕ
  symbol : String
  signalType : Direction
  entryPrice : ℚ
deriving DecidableEq, Repr

/-- The health snapshot computed by `calculateSignalHealth` that
`checkAndGenerateAlerts` consumes. -/
structure HealthStatus where
  status : HealthState
  healthScore : ℚ
  unrealizedPnL : ℚ
  currentPrice : ℚ
deriving DecidableEq, Repr

/-- A tactical alert (message text omitted; type, urgency and timestamp kept). -/
structure TacticalAlert where
  signalId : ℕ
  alertType : AlertType
  urgency : Urgency
  timestamp : ℚ
deriving DecidableEq, Repr

/-- The per-signal `LastAlertState` bookkeeping record; times are
milliseconds. -/
structure LastAlertState where
  status : HealthState
  healthScore : ℚ
  unrealizedPnL : ℚ
  lastAlertTime : Option ℚ
  lastTelegramAlert : Option ℚ
  profitTier : String
  peakProfit : ℚ
  lastPrice : ℚ
  lastProfitWarning : Option ℚ
deriving DecidableEq, Repr

/-- `TELEGRAM_THROTTLE_INTERVAL`: 5 minutes in milliseconds. -/
def TELEGRAM_THROTTLE_INTERVAL : ℚ := 5 * 60 * 1000

/-- `PROFIT_DETERIORATION_THRESHOLD`: 1% drawdown from peak. -/
def PROFIT_DETERIORATION_THRESHOLD : ℚ := 1

/-- `calculateProfitPercent` (economicCalendar.ts lines 618-627), including
the zero-entry guard. -/
def calculateProfitPercent (signalType : Direction) (entryPrice currentPrice : ℚ) : ℚ :=
  if entryPrice = 0 then 0
  else if signalType = .BUY then (currentPrice - entryPrice) / entryPrice * 100
  else (entryPrice - currentPrice) / entryPrice * 100

/-- `getProfitTier` (economicCalendar.ts lines 1606-1612). -/
def getProfitTier (profitPercent : ℚ) : String :=
  if profitPercent > 5 then "EXCELLENT"
  else if profitPercent > 2 then "GOOD"
  else if profitPercent > 1 then "BASIC"
  else if profitPercent > 3/10 then "SMALL"
  else "NONE"

/-- `(lastState as any)?.peakProfit || 0`: absent state or a zero peak read as
0, any other stored peak reads as itself. -/
def peakOf : Option LastAlertState → ℚ
  | none => 0
  | some l => l.peakProfit

/-- Result record of `calculateProfitProtection`. -/
structure ProtectionRecommendation where
  shouldProtect : Bool
  recommendedStopLoss : ℚ
  profitTier : Tier
  protectionPercent : ℚ
  currentProfitPercent : ℚ
  peakProfitPercent : ℚ
  drawdownFromPeak : ℚ
deriving DecidableEq, Repr

/-- Embedding of `TacticalTradingAssistant.calculateProfitProtection`
(economicCalendar.ts lines 915-1000).  `storedPeak` is the
`peakProfitPercent` held in `signalStates` for the signal (absent when the
signal is not in the map, in which case the current profit is the peak). -/
def calculateProfitProtection (signal : SignalInfo) (currentPrice : ℚ)
    (storedPeak : Option ℚ) : ProtectionRecommendation :=
  let entryPrice := signal.entryPrice
  let currentProfitPercent := calculateProfitPercent signal.signalType entryPrice currentPrice
  let peakProfitPercent :=
    match storedPeak with
    | some p => max p currentProfitPercent
    | none => currentProfitPercent
  let drawdownFromPeak := peakProfitPercent - currentProfitPercent
  if peakProfitPercent ≥ 5 then
    let protectedProfit := peakProfitPercent * (75/100)
    { shouldProtect :=
        if drawdownFromPeak > PROFIT_DETERIORATION_THRESHOLD ∨
           currentProfitPercent < protectedProfit then true else false
      recommendedStopLoss :=
        if signal.signalType = .BUY then entryPrice * (1 + protectedProfit / 100)
        else entryPrice * (1 - protectedProfit / 100)
      profitTier := .HUGE, protectionPercent := 75
      currentProfitPercent := currentProfitPercent
      peakProfitPercent := peakProfitPercent
      drawdownFromPeak := drawdownFromPeak }
  else if peakProfitPercent ≥ 3 then
    let protectedProfit := peakProfitPercent * (60/100)
    { shouldProtect :=
        if drawdownFromPeak > PROFIT_DETERIORATION_THRESHOLD ∨
           currentProfitPercent < protectedProfit then true else false
      recommendedStopLoss :=
        if signal.signalType = .BUY then entryPrice * (1 + protectedProfit / 100)
        else entryPrice * (1 - protectedProfit / 100)
      profitTier := .LARGE, protectionPercent := 60
      currentProfitPercent := currentProfitPercent
      peakProfitPercent := peakProfitPercent
      drawdownFromPeak := drawdownFromPeak }
  else if peakProfitPercent ≥ 2 then
    { shouldProtect := if currentProfitPercent < 1 then true else false
      recommendedStopLoss :=
        if signal.signalType = .BUY then entryPrice * (101/100)
        else entryPrice * (99/100)
      profitTier := .MEDIUM, protectionPercent := 50
      currentProfitPercent := currentProfitPercent
      peakProfitPercent := peakProfitPercent
      drawdownFromPeak := drawdownFromPeak }
  else if peakProfitPercent ≥ 1 then
    { shouldProtect := if currentProfitPercent < 1/2 then true else false
      recommendedStopLoss :=
        if signal.signalType = .BUY then entryPrice * (1003/1000)
        else entryPrice * (997/1000)
      profitTier := .SMALL, protectionPercent := 30
      currentProfitPercent := currentProfitPercent
      peakProfitPercent := peakProfitPercent
      drawdownFromPeak := drawdownFromPeak }
  else
    { shouldProtect := false, recommendedStopLoss := 0
      profitTier := .NONE, protectionPercent := 0
      currentProfitPercent := currentProfitPercent
      peakProfitPercent := peakProfitPercent
      drawdownFromPeak := drawdownFromPeak }

/-- `isSignalInvalidated` (economicCalendar.ts lines 884-896): major loss
beyond −2.5%, health collapse below 20, or an INVALIDATED status. -/
def isSignalInvalidated (profitPercent : ℚ) (health : HealthStatus) : Prop :=
  profitPercent < -(5/2) ∨ health.healthScore < 20 ∨ health.status = .INVALIDATED

instance (profitPercent : ℚ) (health : HealthStatus) :
    Decidable (isSignalInvalidated profitPercent health) := by
  unfold isSignalInvalidated
  infer_instance

/-- `isSignalWeakening` (economicCalendar.ts lines 858-879).  The fourth
disjunct of the source (price moving against the signal direction) reads
`lastState.signal?.signalType`, a field never written into `LastAlertState`,
and falls back to `health.signalType`, which `calculateSignalHealth` never
sets either; both are undefined, so `againstSignal` is always false and that
disjunct never fires. -/
def isSignalWeakening (lastState : Option LastAlertState) (profitPercent : ℚ)
    (health : HealthStatus) : Prop :=
  match lastState with
  | none => False
  | some ls =>
      (ls.peakProfit - profitPercent > 3/2 ∧ ls.peakProfit > 1) ∨
      ls.healthScore - health.healthScore > 20 ∨
      (ls.status = .STRONG ∧ health.status = .WEAKENING)

instance (profitPercent : ℚ) (health : HealthStatus) :
    (lastState : Option LastAlertState) →
      Decidable (isSignalWeakening lastState profitPercent health)
  | none => isFalse (by simp [isSignalWeakening])
  | some ls => decidable_of_iff
      ((ls.peakProfit - profitPercent > 3/2 ∧ ls.peakProfit > 1) ∨
        ls.healthScore - health.healthScore > 20 ∨
        (ls.status = .STRONG ∧ health.status = .WEAKENING)) Iff.rfl

/-- `isProfitDeteriorating` (economicCalendar.ts lines 901-910): peak at
least 2%, drop from peak above 2.5%, remaining profit above 0.5%. -/
def isProfitDeteriorating (profitPercent peakProfit : ℚ) : Prop :=
  ¬(peakProfit < 2) ∧ peakProfit - profitPercent > 5/2 ∧ profitPercent > 1/2

instance (profitPercent peakProfit : ℚ) :
    Decidable (isProfitDeteriorating profitPercent peakProfit) := by
  unfold isProfitDeteriorating
  infer_instance

/-- JavaScript `a || b` on nullable times (a `Date` object is always truthy). -/
def jsOrOpt : Option ℚ → Option ℚ → Option ℚ
  | some t, _ => some t
  | none, o => o

/-- `updateSignalStateOnly` (economicCalendar.ts lines 840-853): silent state
refresh that preserves the alert timestamps. -/
def updateSignalStateOnly (lastState : Option LastAlertState) (health : HealthStatus)
    (peakProfit currentPrice : ℚ) (lastAlertTimeArg : Option ℚ) : LastAlertState :=
  { status := health.status, healthScore := health.healthScore
    unrealizedPnL := health.unrealizedPnL
    lastAlertTime := jsOrOpt lastAlertTimeArg (lastState.bind (·.lastAlertTime))
    lastTelegramAlert := lastState.bind (·.lastTelegramAlert)
    profitTier := getProfitTier health.unrealizedPnL
    peakProfit := peakProfit, lastPrice := currentPrice
    lastProfitWarning := lastState.bind (·.lastProfitWarning) }

/-- The state written when an alert is emitted (economicCalendar.ts lines
820-830): both alert timestamps move to `now`, and a PROFIT_PROTECTION alert
records `lastProfitWarning`. -/
def alertState (lastState : Option LastAlertState) (health : HealthStatus)
    (ty : AlertType) (now peakProfit currentPrice : ℚ) : LastAlertState :=
  { status := health.status, healthScore := health.healthScore
    unrealizedPnL := health.unrealizedPnL
    lastAlertTime := some now, lastTelegramAlert := some now
    profitTier := getProfitTier health.unrealizedPnL
    peakProfit := peakProfit, lastPrice := currentPrice
    lastProfitWarning :=
      if ty = .PROFIT_PROTECTION then some now
      else lastState.bind (·.lastProfitWarning) }

/-- The per-cycle profit computation of `checkAndGenerateAlerts`
(economicCalendar.ts lines 744-746; no zero-entry guard on this path). -/
def profitPercentOf (signal : SignalInfo) (currentPrice : ℚ) : ℚ :=
  if signal.signalType = .BUY
  then (currentPrice - signal.entryPrice) / signal.entryPrice * 100
  else (signal.entryPrice - currentPrice) / signal.entryPrice * 100

/-- `timeSinceLastTelegram < TELEGRAM_THROTTLE_INTERVAL`: with no previous
Telegram alert the elapsed time is `Infinity` and the test is false. -/
def withinThrottle (now : ℚ) (lastTelegram : Option ℚ) : Bool :=
  match lastTelegram with
  | some t => if now - t < TELEGRAM_THROTTLE_INTERVAL then true else false
  | none => false

/-- Embedding of `TacticalTradingAssistant.checkAndGenerateAlerts`
(economicCalendar.ts lines 734-835) as a state transition: given the signal,
the current time, the previous per-signal alert state and the fresh health
snapshot, produce the emitted alert (if any) and the new alert state. -/
def checkAndGenerateAlerts (signal : SignalInfo) (now : ℚ)
    (lastState : Option LastAlertState) (health : HealthStatus) :
    Option TacticalAlert × LastAlertState :=
  let currentPrice := health.currentPrice
  let profitPercent := profitPercentOf signal currentPrice
  let peakProfit := max (peakOf lastState) profitPercent
  if health.status ≠ .INVALIDATED ∧
      withinThrottle now (lastState.bind (·.lastTelegramAlert)) = true then
    (none, updateSignalStateOnly lastState health peakProfit currentPrice
      (lastState.bind (·.lastAlertTime)))
  else if isSignalInvalidated profitPercent health then
    (some { signalId := signal.id, alertType := .INVALIDATED, urgency := .HIGH
            timestamp := now },
     alertState lastState health .INVALIDATED now peakProfit currentPrice)
  else if isSignalWeakening lastState profitPercent health then
    (some { signalId := signal.id, alertType := .WARNING, urgency := .MEDIUM
            timestamp := now },
     alertState lastState health .WARNING now peakProfit currentPrice)
  else if isProfitDeteriorating profitPercent peakProfit ∧
      lastState.bind (·.lastProfitWarning) = none then
    (some { signalId := signal.id, alertType := .PROFIT_PROTECTION, urgency := .MEDIUM
            timestamp := now },
     alertState lastState health .PROFIT_PROTECTION now peakProfit currentPrice)
  else
    (none, updateSignalStateOnly lastState health peakProfit currentPrice
      (lastState.bind (·.lastAlertTime)))

/-- Test fixture: a monitored BUY signal on V75 with entry 100. -/
def exampleSignal : SignalInfo :=
  { id := 1, symbol := "V75", signalType := .BUY, entryPrice := 100 }

/-- Test fixture: a previous alert state whose last alert went out at time 0
and whose tracked peak profit is 5%. -/
def examplePrevState : LastAlertState :=
  { status := .STRONG, healthScore := 80, unrealizedPnL := 2, lastAlertTime := some 0
    lastTelegramAlert := some 0, profitTier := "NONE", peakProfit := 5, lastPrice := 105
    lastProfitWarning := none }

/-- Test fixture: a healthy snapshot with the price retraced to 102. -/
def exampleHealth : HealthStatus :=
  { status := .STRONG, healthScore := 80, unrealizedPnL := 2, currentPrice := 102 }

/-- Test fixture: a previous alert state with peak profit 6% and no alert sent
yet. -/
def exampleRetraceState : LastAlertState :=
  { status := .STRONG, healthScore := 80, unrealizedPnL := 4, lastAlertTime := none
    lastTelegramAlert := none, profitTier := "NONE", peakProfit := 6, lastPrice := 106
    lastProfitWarning := none }

/-- Test fixture: a healthy snapshot at price 104 (profit 4% after a 6% peak). -/
def exampleRetraceHealth : HealthStatus :=
  { status := .STRONG, healthScore := 80, unrealizedPnL := 4, currentPrice := 104 }

end Tactical

/-- C9: For every sufficiently long price history, the generator returns HOLD
whenever the gap between the bullish and bearish component scores does not
exceed the 20-point separation threshold (a gap of exactly 20 yields a base
confidence of 60, below the 70% emission gate, hence HOLD as well); when a BUY
or SELL is produced, the technical confidence entering the confirmation
adjustments is at most 85; and the final returned confidence is at most 95
(it is a natural number, hence at least 0). -/
theorem C9_hold_threshold_and_confidence_bounds (i : Technical.SignalInputs) :
    ((Technical.generateSignalDecision i).scoreDifference ≤ 20 →
      (Technical.generateSignalDecision i).signalType = Tri.HOLD) ∧
    ((Technical.generateSignalDecision i).signalType ≠ Tri.HOLD →
      (Technical.generateSignalDecision i).technicalConfidence ≤ 85) ∧
    (Technical.generateSignalDecision i).confidence ≤ 95 := by
  simp only [Technical.generateSignalDecision]
  refine ⟨?_, ?_, ?_⟩
  · intro hgap
    split_ifs <;> first | rfl | omega
  · intro hne
    split_ifs at hne ⊢ <;> first | omega | simp_all
  · split_ifs <;> omega

/-- The score gap computed by `generateSignalDecision`, expressed through the
component scores. -/
theorem generateSignalDecision_scoreDifference (i : Technical.SignalInputs) :
    (Technical.generateSignalDecision i).scoreDifference =
      max (Technical.bullishScore i) (Technical.bearishScore i) -
        min (Technical.bullishScore i) (Technical.bearishScore i) := by
  simp only [Technical.generateSignalDecision]

/-- Witness for C9: on neutral inputs every component scores zero, the gap is
0 ≤ 20, and the generator returns HOLD. -/
theorem C9_witness :
    (Technical.generateSignalDecision
      { rsi := 50, macd := 0, macdSignal := 0, currentPrice := 100, sma20 := 100
        ema50 := 100, bollingerUpper := 100, bollingerLower := 100
        trendDirection := 0, priceChange := 0, msTrend := .SIDEWAYS
        msSupport := 99, msResistance := 101, msVolatility := .LOW
        mtfAlignment := false, regimeType := .RANGING, regimeStrength := 0
        volumeConfirmation := false, trapDetected := false
        strategy := .SCALP }).signalType = Tri.HOLD := by
  apply (C9_hold_threshold_and_confidence_bounds _).1
  rw [generateSignalDecision_scoreDifference]
  have h1 : Technical.rsiScores 50 = (0, 0) := by norm_num [Technical.rsiScores]
  have h2 : Technical.macdScores 0 0 = (0, 0) := by norm_num [Technical.macdScores]
  have h3 : Technical.maScores 100 100 100 = (0, 0) := by norm_num [Technical.maScores]
  have h4 : Technical.bbScores 100 100 100 = (0, 0) := by norm_num [Technical.bbScores]
  have h5 : Technical.momentumScores 0 0 = (0, 0) := by norm_num [Technical.momentumScores]
  have h6 : Technical.structureScores .SIDEWAYS 100 99 101 = (0, 0) := by
    simp [Technical.structureScores]
  simp [Technical.bullishScore, Technical.bearishScore, h1, h2, h3, h4, h5, h6]

namespace Tracker

theorem mem_of_mem_removeId {id : ℕ} : ∀ {l : List TSignal} {x : TSignal},
    x ∈ removeId id l → x ∈ l := by
  intro l
  induction l with
  | nil => intro x hx; simp [removeId] at hx
  | cons a rest ih =>
    intro x hx
    by_cases h : a.id = id
    · rw [removeId, if_pos h] at hx
      exact List.mem_cons_of_mem _ (ih hx)
    · rw [removeId, if_neg h] at hx
      rcases List.mem_cons.mp hx with rfl | hx
      · exact List.mem_cons_self _ _
      · exact List.mem_cons_of_mem _ (ih hx)

theorem id_ne_of_mem_removeId {id : ℕ} : ∀ {l : List TSignal} {x : TSignal},
    x ∈ removeId id l → x.id ≠ id := by
  intro l
  induction l with
  | nil => intro x hx; simp [removeId] at hx
  | cons a rest ih =>
    intro x hx
    by_cases h : a.id = id
    · rw [removeId, if_pos h] at hx
      exact ih hx
    · rw [removeId, if_neg h] at hx
      rcases List.mem_cons.mp hx with rfl | hx
      · exact h
      · exact ih hx

theorem mem_removeId_of_mem {id : ℕ} : ∀ {l : List TSignal} {x : TSignal},
    x ∈ l → x.id ≠ id → x ∈ removeId id l := by
  intro l
  induction l with
  | nil => intro x hx; simp at hx
  | cons a rest ih =>
    intro x hx hne
    rcases List.mem_cons.mp hx with rfl | hx
    · rw [removeId, if_neg hne]
      exact List.mem_cons_self _ _
    · by_cases h : a.id = id
      · rw [removeId, if_pos h]
        exact ih hx hne
      · rw [removeId, if_neg h]
        exact List.mem_cons_of_mem _ (ih hx hne)

/-- Case analysis for one loop iteration of `processTickData`: either the
signal is not closed by the tick and the state is unchanged, or its hit is
recorded via `closeSignal`. -/
theorem tickStep_cases (sym : String) (price : ℚ) (σ : TrackerState) (s : TSignal) :
    (¬ closes sym price s ∧ tickStep sym price σ s = σ) ∨
    (closes sym price s ∧ ∃ res hit, checkHit s price = some (res, hit) ∧
      tickStep sym price σ s = closeSignal σ s price res hit) := by
  by_cases h1 : s.symbol = sym ∧ s.isActive = true
  · cases hh : checkHit s price with
    | none =>
        left
        refine ⟨fun hc => ?_, ?_⟩
        · rw [closes] at hc
          rw [hh] at hc
          simp at hc
        · rw [tickStep, if_pos h1, checkSignalStatus, hh]
    | some rh =>
        right
        obtain ⟨res, hit⟩ := rh
        refine ⟨⟨h1.1, h1.2, by rw [hh]; rfl⟩, res, hit, rfl, ?_⟩
        rw [tickStep, if_pos h1, checkSignalStatus, hh]
  · left
    refine ⟨fun hc => h1 ⟨hc.1, hc.2.1⟩, ?_⟩
    rw [tickStep, if_neg h1]

theorem tracked_subset_tickStep {sym : String} {price : ℚ} {σ : TrackerState}
    {s x : TSignal} (hx : x ∈ (tickStep sym price σ s).trackedSignals) :
    x ∈ σ.trackedSignals := by
  rcases tickStep_cases sym price σ s with ⟨_, heq⟩ | ⟨_, res, hit, _, heq⟩
  · rwa [heq] at hx
  · rw [heq] at hx
    exact mem_of_mem_removeId hx

theorem tracked_subset_foldl {sym : String} {price : ℚ} : ∀ (l : List TSignal)
    (σ : TrackerState) {x : TSignal},
    x ∈ (List.foldl (tickStep sym price) σ l).trackedSignals → x ∈ σ.trackedSignals := by
  intro l
  induction l with
  | nil => intro σ x hx; exact hx
  | cons a rest ih => intro σ x hx; exact tracked_subset_tickStep (ih _ hx)

theorem not_mem_foldl_of_closes {sym : String} {price : ℚ} : ∀ (l : List TSignal)
    (σ : TrackerState) {s : TSignal}, s ∈ l → closes sym price s →
    ∀ x ∈ (List.foldl (tickStep sym price) σ l).trackedSignals, x.id ≠ s.id := by
  intro l
  induction l with
  | nil => intro σ s hs; cases hs
  | cons a rest ih =>
    intro σ s hs hc x hx
    rcases List.mem_cons.mp hs with rfl | hs'
    · have hx' : x ∈ (tickStep sym price σ s).trackedSignals :=
        tracked_subset_foldl rest _ hx
      rcases tickStep_cases sym price σ s with ⟨hnc, _⟩ | ⟨_, res, hit, _, heq⟩
      · exact absurd hc hnc
      · rw [heq] at hx'
        exact id_ne_of_mem_removeId hx'
    · exact ih _ hs' hc x hx

/-- Every signal still tracked after a tick was not closable by that tick. -/
theorem not_closes_of_mem_processTickData {st : TrackerState} {sym : String} {price : ℚ}
    {x : TSignal} (hx : x ∈ (processTickData st sym price).trackedSignals) :
    ¬ closes sym price x := by
  intro hc
  have hx0 : x ∈ st.trackedSignals := tracked_subset_foldl _ _ hx
  exact not_mem_foldl_of_closes _ _ hx0 hc x hx rfl

theorem foldl_tickStep_id {sym : String} {price : ℚ} : ∀ (l : List TSignal)
    (σ : TrackerState), (∀ s ∈ l, ¬ closes sym price s) →
    List.foldl (tickStep sym price) σ l = σ := by
  intro l
  induction l with
  | nil => intro σ _; rfl
  | cons a rest ih =>
    intro σ h
    have ha : tickStep sym price σ a = σ := by
      rcases tickStep_cases sym price σ a with ⟨_, heq⟩ | ⟨hc, _⟩
      · exact heq
      · exact absurd hc (h a (List.mem_cons_self _ _))
    rw [List.foldl_cons, ha]
    exact ih _ fun s hs => h s (List.mem_cons_of_mem _ hs)

theorem mem_tracked_foldl {sym : String} {price : ℚ} : ∀ (l : List TSignal)
    (σ : TrackerState) {s : TSignal}, s ∈ σ.trackedSignals →
    (∀ x ∈ l, closes sym price x → x.id ≠ s.id) →
    s ∈ (List.foldl (tickStep sym price) σ l).trackedSignals := by
  intro l
  induction l with
  | nil => intro σ s hs _; exact hs
  | cons a rest ih =>
    intro σ s hs h
    have hstep : s ∈ (tickStep sym price σ a).trackedSignals := by
      rcases tickStep_cases sym price σ a with ⟨_, heq⟩ | ⟨hc, res, hit, _, heq⟩
      · rwa [heq]
      · rw [heq]
        exact mem_removeId_of_mem hs
          (fun he => h a (List.mem_cons_self _ _) hc (he ▸ rfl))
    exact ih _ hstep fun x hx => h x (List.mem_cons_of_mem _ hx)

theorem markClosed_spec {id : ℕ} {res : Outcome} {p e : ℚ} : ∀ {l : List TSignal}
    {x : TSignal}, x ∈ markClosed id res p e l → x.id = id →
    x.isActive = false ∧ x.result = some res := by
  intro l
  induction l with
  | nil => intro x hx; simp [markClosed] at hx
  | cons a rest ih =>
    intro x hx hid
    rw [markClosed] at hx
    rcases List.mem_cons.mp hx with heq | hx'
    · by_cases h : a.id = id
      · rw [if_pos h] at heq
        subst heq
        exact ⟨rfl, rfl⟩
      · rw [if_neg h] at heq
        subst heq
        exact absurd hid h
    · exact ih hx' hid

end Tracker

/-- C4: Delivering the same closing tick twice in sequence to the tick-driven
tracker is idempotent: the first delivery closes every hit signal and removes
it from the tracked set, so the second delivery is a no-op and produces no
further outcome records. -/
theorem C4_closing_tick_idempotent (st : Tracker.TrackerState) (sym : String) (price : ℚ) :
    Tracker.processTickData (Tracker.processTickData st sym price) sym price =
      Tracker.processTickData st sym price := by
  conv_lhs => rw [Tracker.processTickData]
  exact Tracker.foldl_tickStep_id _ _
    fun s hs => Tracker.not_closes_of_mem_processTickData hs

/-- C10: For every tracked signal, a null take-profit level means no WIN can
ever be registered by a tick, a null stop-loss level means no LOSS can ever be
registered, and a signal with both levels null is never closed by tick
processing: `checkSignalStatus` leaves the state unchanged, and (with distinct
tracked ids) the signal survives every `processTickData` call. -/
theorem C10_null_levels_never_close (st : Tracker.TrackerState) (s : Tracker.TSignal)
    (price : ℚ) (sym : String) :
    (s.takeProfitPrice = none → ∀ ht,
      Tracker.checkHit s price ≠ some (Tracker.Outcome.WIN, ht)) ∧
    (s.stopLossPrice = none → ∀ ht,
      Tracker.checkHit s price ≠ some (Tracker.Outcome.LOSS, ht)) ∧
    (s.takeProfitPrice = none → s.stopLossPrice = none →
      Tracker.checkHit s price = none ∧ Tracker.checkSignalStatus st s price = st) ∧
    (s.takeProfitPrice = none → s.stopLossPrice = none → s ∈ st.trackedSignals →
      (st.trackedSignals.map Tracker.TSignal.id).Nodup →
      s ∈ (Tracker.processTickData st sym price).trackedSignals) := by
  have htp : s.takeProfitPrice = none → ¬ Tracker.tpHit s price := by
    intro h
    simp [Tracker.tpHit, h, Tracker.optHit]
  have hsl : s.stopLossPrice = none → ¬ Tracker.slHit s price := by
    intro h
    simp [Tracker.slHit, h, Tracker.optHit]
  refine ⟨?_, ?_, ?_, ?_⟩
  · intro h ht
    rw [Tracker.checkHit, if_neg (htp h)]
    split <;> simp
  · intro h ht
    rw [Tracker.checkHit]
    split
    · simp
    · rw [if_neg (hsl h)]
      simp
  · intro h1 h2
    have hnone : Tracker.checkHit s price = none := by
      rw [Tracker.checkHit, if_neg (htp h1), if_neg (hsl h2)]
    exact ⟨hnone, by rw [Tracker.checkSignalStatus, hnone]⟩
  · intro h1 h2 hmem hnodup
    have hnone : Tracker.checkHit s price = none := by
      rw [Tracker.checkHit, if_neg (htp h1), if_neg (hsl h2)]
    refine Tracker.mem_tracked_foldl _ _ hmem ?_
    intro x hx hc hid
    have hxs : x = s := by
      have hinj := List.inj_on_of_nodup_map hnodup
      exact hinj hx hmem hid
    rw [hxs, Tracker.closes, hnone] at hc
    simp at hc

/-- Witness for C10: a tracked BUY signal with both levels null survives a
tick at any price. -/
theorem C10_witness :
    (⟨1, "V10", .BUY, 100, none, none, 80, true, none, none, none⟩ : Tracker.TSignal) ∈
      (Tracker.processTickData
        { trackedSignals := [⟨1, "V10", .BUY, 100, none, none, 80, true, none, none, none⟩]
          store := [⟨1, "V10", .BUY, 100, none, none, 80, true, none, none, none⟩]
          history := [], riskProfile := RiskMgmt.initialStats }
        "V10" 95).trackedSignals := by
  exact (C10_null_levels_never_close _ _ 95 "V10").2.2.2 rfl rfl (by simp) (by simp)

/-- C3 (amended): For every tracked active BUY signal a tick with price ≥
takeProfit registers a WIN and a tick with price ≤ stopLoss registers a LOSS
(mirrored for SELL), and the resulting closure records exactly one outcome:
it appends one history record, removes the signal id from the tracked set,
deactivates the stored signal with the recorded result — and leaves the
RiskProfile unchanged: the tick-driven tracker never calls
`updateTradeResult`, which is invoked only from the HTTP route handlers. -/
theorem C3_tick_closure_effects (st : Tracker.TrackerState) (s : Tracker.TSignal)
    (price : ℚ) :
    (s.signalType = .BUY → ∀ v, s.takeProfitPrice = some v → v ≠ 0 → price ≥ v →
      Tracker.checkHit s price = some (Tracker.Outcome.WIN, Tracker.HitType.TP)) ∧
    (s.signalType = .SELL → ∀ v, s.takeProfitPrice = some v → v ≠ 0 → price ≤ v →
      Tracker.checkHit s price = some (Tracker.Outcome.WIN, Tracker.HitType.TP)) ∧
    (s.signalType = .BUY → ¬ Tracker.tpHit s price →
      ∀ v, s.stopLossPrice = some v → v ≠ 0 → price ≤ v →
      Tracker.checkHit s price = some (Tracker.Outcome.LOSS, Tracker.HitType.SL)) ∧
    (s.signalType = .SELL → ¬ Tracker.tpHit s price →
      ∀ v, s.stopLossPrice = some v → v ≠ 0 → price ≥ v →
      Tracker.checkHit s price = some (Tracker.Outcome.LOSS, Tracker.HitType.SL)) ∧
    (∀ o h, Tracker.checkHit s price = some (o, h) →
      (Tracker.checkSignalStatus st s price).history = st.history ++
        [{ asset := s.symbol, signalType := s.signalType, entryPrice := s.entryPrice
           exitPrice := price, takeProfitPrice := s.takeProfitPrice
           stopLossPrice := s.stopLossPrice, confidence := s.confidence, result := o
           pnl := Tracker.pnlPercent s.signalType s.entryPrice price, hitType := h }] ∧
      (∀ x ∈ (Tracker.checkSignalStatus st s price).trackedSignals, x.id ≠ s.id) ∧
      (∀ x ∈ (Tracker.checkSignalStatus st s price).store, x.id = s.id →
        x.isActive = false ∧ x.result = some o) ∧
      (Tracker.checkSignalStatus st s price).riskProfile = st.riskProfile) := by
  refine ⟨?_, ?_, ?_, ?_, ?_⟩
  · intro hd v htp hv hge
    have h1 : Tracker.tpHit s price := by
      rw [Tracker.tpHit, if_pos hd, htp]
      exact ⟨hv, hge⟩
    rw [Tracker.checkHit, if_pos h1]
  · intro hd v htp hv hle
    have hne : s.signalType ≠ .BUY := by rw [hd]; intro h; cases h
    have h1 : Tracker.tpHit s price := by
      rw [Tracker.tpHit, if_neg hne, htp]
      exact ⟨hv, hle⟩
    rw [Tracker.checkHit, if_pos h1]
  · intro hd hno v hsl hv hle
    have h1 : Tracker.slHit s price := by
      rw [Tracker.slHit, if_pos hd, hsl]
      exact ⟨hv, hle⟩
    rw [Tracker.checkHit, if_neg hno, if_pos h1]
  · intro hd hno v hsl hv hge
    have hne : s.signalType ≠ .BUY := by rw [hd]; intro h; cases h
    have h1 : Tracker.slHit s price := by
      rw [Tracker.slHit, if_neg hne, hsl]
      exact ⟨hv, hge⟩
    rw [Tracker.checkHit, if_neg hno, if_pos h1]
  · intro o h hsome
    rw [Tracker.checkSignalStatus, hsome]
    refine ⟨rfl, ?_, ?_, rfl⟩
    · intro x hx
      exact Tracker.id_ne_of_mem_removeId hx
    · intro x hx hid
      exact Tracker.markClosed_spec hx hid

/-- Witness for C3: a BUY signal with take-profit 103 hit by a tick at 103
registers a WIN, and the closure appends exactly one history record while
leaving the risk profile untouched. -/
theorem C3_witness :
    Tracker.checkHit
      (⟨1, "V75", .BUY, 100, some 103, some 99, 80, true, none, none, none⟩ :
        Tracker.TSignal) 103 = some (Tracker.Outcome.WIN, Tracker.HitType.TP) ∧
    (Tracker.checkSignalStatus
      { trackedSignals :=
          [⟨1, "V75", .BUY, 100, some 103, some 99, 80, true, none, none, none⟩]
        store := [⟨1, "V75", .BUY, 100, some 103, some 99, 80, true, none, none, none⟩]
        history := [], riskProfile := RiskMgmt.initialStats }
      ⟨1, "V75", .BUY, 100, some 103, some 99, 80, true, none, none, none⟩
      103).riskProfile = RiskMgmt.initialStats := by
  have h1 := (C3_tick_closure_effects
    { trackedSignals :=
        [⟨1, "V75", .BUY, 100, some 103, some 99, 80, true, none, none, none⟩]
      store := [⟨1, "V75", .BUY, 100, some 103, some 99, 80, true, none, none, none⟩]
      history := [], riskProfile := RiskMgmt.initialStats }
    ⟨1, "V75", .BUY, 100, some 103, some 99, 80, true, none, none, none⟩ 103).1
    rfl 103 rfl (by norm_num) (by norm_num)
  refine ⟨h1, ?_⟩
  exact ((C3_tick_closure_effects _ _ 103).2.2.2.2 _ _ h1).2.2.2

/-- C3 (counterexample to the original claim): the original claim states that
closure updates the RiskProfile via `updateTradeResult(pnl, isWin)`.  On a
concrete closing tick (BUY, entry 100, TP 103, tick 103, pnl 3%) the tracker
appends the history record but leaves the risk profile identical to its
initial value, whereas any application of `updateTradeResult` necessarily
increments `totalTrades` (here from 0 to 1).  So `closeSignal` does not invoke
`updateTradeResult`. -/
theorem C3_counterexample_no_risk_update :
    (Tracker.processTickData
      { trackedSignals :=
          [⟨1, "V75", .BUY, 100, some 103, some 99, 80, true, none, none, none⟩]
        store := [⟨1, "V75", .BUY, 100, some 103, some 99, 80, true, none, none, none⟩]
        history := [], riskProfile := RiskMgmt.initialStats }
      "V75" 103).history.length = 1 ∧
    (Tracker.processTickData
      { trackedSignals :=
          [⟨1, "V75", .BUY, 100, some 103, some 99, 80, true, none, none, none⟩]
        store := [⟨1, "V75", .BUY, 100, some 103, some 99, 80, true, none, none, none⟩]
        history := [], riskProfile := RiskMgmt.initialStats }
      "V75" 103).riskProfile.totalTrades = 0 ∧
    (RiskMgmt.updateTradeResult RiskMgmt.initialStats
      (Tracker.pnlPercent .BUY 100 103) true).totalTrades = 1 := by
  have hch : Tracker.checkHit
      (⟨1, "V75", .BUY, 100, some 103, some 99, 80, true, none, none, none⟩ :
        Tracker.TSignal) 103 = some (Tracker.Outcome.WIN, Tracker.HitType.TP) := by
    have h1 : Tracker.tpHit
        (⟨1, "V75", .BUY, 100, some 103, some 99, 80, true, none, none, none⟩ :
          Tracker.TSignal) 103 := by
      rw [Tracker.tpHit]
      norm_num [Tracker.optHit]
    rw [Tracker.checkHit, if_pos h1]
  have hstep : Tracker.processTickData
      { trackedSignals :=
          [⟨1, "V75", .BUY, 100, some 103, some 99, 80, true, none, none, none⟩]
        store := [⟨1, "V75", .BUY, 100, some 103, some 99, 80, true, none, none, none⟩]
        history := [], riskProfile := RiskMgmt.initialStats }
      "V75" 103 =
      Tracker.closeSignal
        { trackedSignals :=
            [⟨1, "V75", .BUY, 100, some 103, some 99, 80, true, none, none, none⟩]
          store := [⟨1, "V75", .BUY, 100, some 103, some 99, 80, true, none, none, none⟩]
          history := [], riskProfile := RiskMgmt.initialStats }
        ⟨1, "V75", .BUY, 100, some 103, some 99, 80, true, none, none, none⟩ 103
        Tracker.Outcome.WIN Tracker.HitType.TP := by
    rw [Tracker.processTickData, List.foldl_cons, List.foldl_nil, Tracker.tickStep,
      if_pos ⟨rfl, rfl⟩, Tracker.checkSignalStatus, hch]
  rw [hstep]
  refine ⟨rfl, rfl, ?_⟩
  norm_num [RiskMgmt.updateTradeResult, RiskMgmt.initialStats, Tracker.pnlPercent]

/-- C8 (amended): RiskManager validation rejects (returns invalid with a
warning) exactly when the candidate's risk-reward ratio is below the
hard-coded 2.0 floor — not the configured minimum —, when the per-trade
maximum loss percentage exceeds the 2% absolute cap, or when the
maximum-drawdown gate has been breached; a risk-reward below 2.0 always
produces a risk-reward warning; and an invalid validation of the computed
risk parameters makes `createSignalWithConflictPrevention` return null with
no mutation, so no signal is created. -/
theorem C8_validation_rejection (cfg : RiskMgmt.Config) (s : RiskMgmt.Stats) (conf : ℚ)
    (rp : RiskMgmt.EnhancedRiskParams) :
    ((RiskMgmt.validateSignalRisk cfg s conf rp).isValid = false ↔
      (rp.riskRewardRatio < 2 ∨ rp.maxLossPercentage > 2 ∨
        RiskMgmt.shouldStopTrading cfg s)) ∧
    (rp.riskRewardRatio < 2 →
      RiskMgmt.Warning.riskReward ∈ (RiskMgmt.validateSignalRisk cfg s conf rp).warnings) ∧
    (∀ (st : Manager.Store) (sd : Manager.InsertSignal),
      (RiskMgmt.validateSignalRisk cfg s (sd.confidence : ℚ)
        (RiskMgmt.calculateEnhancedRiskParams cfg s sd.symbol sd.signalType sd.entryPrice
          (sd.confidence : ℚ) 1 10000)).isValid = false →
      Manager.createSignalWithConflictPrevention cfg s st sd = (none, st)) := by
  refine ⟨?_, ?_, ?_⟩
  · rw [RiskMgmt.validateSignalRisk]
    by_cases h : rp.riskRewardRatio < 2 ∨ rp.maxLossPercentage > 2 ∨
        RiskMgmt.shouldStopTrading cfg s
    · simp [h]
    · simp [h]
  · intro h
    rw [RiskMgmt.validateSignalRisk]
    simp [h]
  · intro st sd h
    rw [Manager.createSignalWithConflictPrevention, if_pos h]

/-- Witness for C8: a candidate whose risk-reward computes to 1.8 is returned
invalid with a risk-reward warning (minimum configured at 2.5 in
`defaultConfig`). -/
theorem C8_witness :
    (RiskMgmt.validateSignalRisk RiskMgmt.defaultConfig RiskMgmt.initialStats 80
      { entryPrice := 100, stopLossPrice := 99, takeProfitPrice := 102, positionSize := 1
        riskAmount := 15, rewardAmount := 27, riskRewardRatio := 9/5
        maxLossPercentage := 1, maxGainPercentage := 2
        confidenceAdjustment := 1 }).isValid = false ∧
    RiskMgmt.Warning.riskReward ∈
      (RiskMgmt.validateSignalRisk RiskMgmt.defaultConfig RiskMgmt.initialStats 80
        { entryPrice := 100, stopLossPrice := 99, takeProfitPrice := 102, positionSize := 1
          riskAmount := 15, rewardAmount := 27, riskRewardRatio := 9/5
          maxLossPercentage := 1, maxGainPercentage := 2
          confidenceAdjustment := 1 }).warnings := by
  constructor
  · exact (C8_validation_rejection RiskMgmt.defaultConfig RiskMgmt.initialStats 80 _).1.mpr
      (Or.inl (by norm_num))
  · exact (C8_validation_rejection RiskMgmt.defaultConfig RiskMgmt.initialStats 80 _).2.1
      (by norm_num)

/-- C8 (counterexample to the original claim): the original claim says
validation rejects whenever the risk-reward ratio is below the configured
minimum.  With the default configuration (minimum 2.5) a candidate whose
risk-reward is 2.2 — below the configured minimum — is nevertheless returned
valid, because the code compares against a hard-coded 2.0. -/
theorem C8_counterexample_configured_minimum_ignored :
    (RiskMgmt.validateSignalRisk RiskMgmt.defaultConfig RiskMgmt.initialStats 80
      { entryPrice := 100, stopLossPrice := 99, takeProfitPrice := 102, positionSize := 1
        riskAmount := 15, rewardAmount := 33, riskRewardRatio := 11/5
        maxLossPercentage := 1, maxGainPercentage := 2
        confidenceAdjustment := 1 }).isValid = true ∧
    (11/5 : ℚ) < RiskMgmt.defaultConfig.riskRewardRatio := by
  constructor
  · rw [RiskMgmt.validateSignalRisk]
    have h1 : ¬((11/5 : ℚ) < 2) := by norm_num
    have h2 : ¬((1 : ℚ) > 2) := by norm_num
    have h3 : ¬ RiskMgmt.shouldStopTrading RiskMgmt.defaultConfig RiskMgmt.initialStats := by
      rw [RiskMgmt.shouldStopTrading]
      norm_num [RiskMgmt.initialStats]
    simp [h1, h2, h3]
  · norm_num [RiskMgmt.defaultConfig]

namespace Manager

/-- The despite-conflicts loop succeeds exactly when the candidate beats at
least one conflicting signal. -/
theorem shouldCreate_iff (sd : InsertSignal) : ∀ (l : List StoredSignal),
    shouldCreateDespiteConflicts sd l = true ↔ ∃ c ∈ l, beats sd c := by
  intro l
  induction l with
  | nil => simp [shouldCreateDespiteConflicts]
  | cons a rest ih =>
    rw [shouldCreateDespiteConflicts]
    by_cases h : beats sd a
    · simp [h]
    · rw [if_neg h, ih]
      constructor
      · rintro ⟨c, hc, hb⟩
        exact ⟨c, List.mem_cons_of_mem _ hc, hb⟩
      · rintro ⟨c, hc, hb⟩
        rcases List.mem_cons.mp hc with rfl | hc'
        · exact absurd hb h
        · exact ⟨c, hc', hb⟩

theorem deactivateOne_marks (st : Store) (id : ℕ) (e : ℚ) :
    ∀ x ∈ (deactivateOne st id e).signals, x.id = id →
      x.isActive = false ∧ x.replaced = true := by
  intro x hx hid
  rw [deactivateOne] at hx
  simp only [List.mem_map] at hx
  obtain ⟨y, _, hy⟩ := hx
  by_cases h : y.id = id
  · rw [if_pos h] at hy
    rw [← hy]
    exact ⟨rfl, rfl⟩
  · rw [if_neg h] at hy
    rw [← hy] at hid
    exact absurd hid h

theorem deactivateOne_preserves (st : Store) (id' : ℕ) (e : ℚ) (id : ℕ)
    (h : ∀ x ∈ st.signals, x.id = id → x.isActive = false ∧ x.replaced = true) :
    ∀ x ∈ (deactivateOne st id' e).signals, x.id = id →
      x.isActive = false ∧ x.replaced = true := by
  intro x hx hid
  rw [deactivateOne] at hx
  simp only [List.mem_map] at hx
  obtain ⟨y, hy0, hy⟩ := hx
  by_cases hcase : y.id = id'
  · rw [if_pos hcase] at hy
    rw [← hy]
    exact ⟨rfl, rfl⟩
  · rw [if_neg hcase] at hy
    rw [← hy]
    rw [← hy] at hid
    exact h y hy0 hid

theorem deactivate_preserves (id : ℕ) : ∀ (cs : List StoredSignal) (st : Store),
    (∀ x ∈ st.signals, x.id = id → x.isActive = false ∧ x.replaced = true) →
    ∀ x ∈ (deactivateConflictingSignals cs st).signals, x.id = id →
      x.isActive = false ∧ x.replaced = true := by
  intro cs
  induction cs with
  | nil => intro st h; exact h
  | cons a rest ih =>
    intro st h
    exact ih _ (deactivateOne_preserves st a.id a.entryPrice id h)

/-- After `deactivateConflictingSignals`, every stored signal sharing an id
with any conflict is deactivated and marked REPLACED. -/
theorem deactivate_marks_all : ∀ (cs : List StoredSignal) (st : Store) (c : StoredSignal),
    c ∈ cs → ∀ x ∈ (deactivateConflictingSignals cs st).signals, x.id = c.id →
      x.isActive = false ∧ x.replaced = true := by
  intro cs
  induction cs with
  | nil => intro st c hc; cases hc
  | cons a rest ih =>
    intro st c hc
    rcases List.mem_cons.mp hc with rfl | hc'
    · exact deactivate_preserves c.id rest _ (deactivateOne_marks st c.id c.entryPrice)
    · exact ih _ c hc'

/-- Evaluation of `createSignalWithConflictPrevention` when validation passes
and conflicts exist: the outcome is decided by `shouldCreateDespiteConflicts`
alone. -/
theorem create_valid_conflicts (cfg : RiskMgmt.Config) (rs : RiskMgmt.Stats) (st : Store)
    (sd : InsertSignal) (c : StoredSignal) (cs : List StoredSignal)
    (hv : (RiskMgmt.validateSignalRisk cfg rs (sd.confidence : ℚ)
      (RiskMgmt.calculateEnhancedRiskParams cfg rs sd.symbol sd.signalType sd.entryPrice
        (sd.confidence : ℚ) 1 10000)).isValid = true)
    (hl : checkForConflicts (getActiveSignals st) sd = c :: cs) :
    createSignalWithConflictPrevention cfg rs st sd =
      (if shouldCreateDespiteConflicts sd (c :: cs) then
        (some (createSignal (deactivateConflictingSignals (c :: cs) st) sd).1,
         (createSignal (deactivateConflictingSignals (c :: cs) st) sd).2)
       else (none, st)) := by
  rw [createSignalWithConflictPrevention]
  rw [if_neg (by rw [hv]; exact fun h => Bool.noConfusion h)]
  rw [hl]

end Manager

/-- C2 (amended): When a candidate passes risk validation and a non-empty set
of conflicting active signals exists, the candidate is created if and only if
its confidence is strictly higher than AT LEAST ONE conflicting signal's
confidence (or equal confidence with a strictly lower priority number) — not
every one; otherwise `createSignalWithConflictPrevention` returns null with no
mutation.  On acceptance, every conflicting active signal — including any
whose confidence exceeds the candidate's — is deactivated with a REPLACED
result before the new signal is persisted. -/
theorem C2_conflict_resolution (cfg : RiskMgmt.Config) (rs : RiskMgmt.Stats)
    (st : Manager.Store) (sd : Manager.InsertSignal)
    (hv : (RiskMgmt.validateSignalRisk cfg rs (sd.confidence : ℚ)
      (RiskMgmt.calculateEnhancedRiskParams cfg rs sd.symbol sd.signalType sd.entryPrice
        (sd.confidence : ℚ) 1 10000)).isValid = true)
    (hne : Manager.checkForConflicts (Manager.getActiveSignals st) sd ≠ []) :
    ((Manager.createSignalWithConflictPrevention cfg rs st sd).1.isSome ↔
      ∃ c ∈ Manager.checkForConflicts (Manager.getActiveSignals st) sd,
        Manager.beats sd c) ∧
    ((Manager.createSignalWithConflictPrevention cfg rs st sd).1 = none →
      (Manager.createSignalWithConflictPrevention cfg rs st sd).2 = st) ∧
    ((Manager.createSignalWithConflictPrevention cfg rs st sd).1.isSome →
      (Manager.createSignalWithConflictPrevention cfg rs st sd).2 =
        (Manager.createSignal (Manager.deactivateConflictingSignals
          (Manager.checkForConflicts (Manager.getActiveSignals st) sd) st) sd).2 ∧
      ∀ c ∈ Manager.checkForConflicts (Manager.getActiveSignals st) sd,
        ∀ x ∈ (Manager.deactivateConflictingSignals
          (Manager.checkForConflicts (Manager.getActiveSignals st) sd) st).signals,
          x.id = c.id → x.isActive = false ∧ x.replaced = true) := by
  rcases hl : Manager.checkForConflicts (Manager.getActiveSignals st) sd with _ | ⟨c, cs⟩
  · exact absurd hl hne
  have heq := Manager.create_valid_conflicts cfg rs st sd c cs hv hl
  by_cases hs : Manager.shouldCreateDespiteConflicts sd (c :: cs) = true
  · rw [if_pos hs] at heq
    refine ⟨?_, ?_, ?_⟩
    · rw [heq]
      simpa using (Manager.shouldCreate_iff sd (c :: cs)).mp hs
    · rw [heq]
      intro h
      cases h
    · intro _
      rw [heq]
      exact ⟨rfl, fun cc hcc x hx hid => Manager.deactivate_marks_all _ _ cc hcc x hx hid⟩
  · rw [if_neg hs] at heq
    refine ⟨?_, ?_, ?_⟩
    · rw [heq]
      simp only [Option.isSome_none, Bool.false_eq_true, false_iff]
      intro hex
      exact hs ((Manager.shouldCreate_iff sd (c :: cs)).mpr hex)
    · rw [heq]
      intro _
      rfl
    · rw [heq]
      intro h
      simp at h

namespace Manager

theorem exampleCandidate_validation :
    (RiskMgmt.validateSignalRisk RiskMgmt.defaultConfig RiskMgmt.initialStats
      (exampleCandidate.confidence : ℚ)
      (RiskMgmt.calculateEnhancedRiskParams RiskMgmt.defaultConfig RiskMgmt.initialStats
        exampleCandidate.symbol exampleCandidate.signalType exampleCandidate.entryPrice
        (exampleCandidate.confidence : ℚ) 1 10000)).isValid = true := by
  have hrr : (RiskMgmt.calculateEnhancedRiskParams RiskMgmt.defaultConfig
      RiskMgmt.initialStats exampleCandidate.symbol exampleCandidate.signalType
      exampleCandidate.entryPrice (exampleCandidate.confidence : ℚ) 1
      10000).riskRewardRatio = 5/2 := by
    simp [RiskMgmt.calculateEnhancedRiskParams, RiskMgmt.defaultConfig]
  have hbase : RiskMgmt.calculateBaseStopLoss exampleCandidate.symbol 1 = 1 := by
    rw [RiskMgmt.calculateBaseStopLoss]
    simp [exampleCandidate]
  have hconf : RiskMgmt.getConfidenceBasedRisk (exampleCandidate.confidence : ℚ) = 4/5 := by
    rw [RiskMgmt.getConfidenceBasedRisk]
    norm_num [exampleCandidate]
  have hadj : RiskMgmt.getConsecutiveLossAdjustment RiskMgmt.initialStats = 1 := by
    rw [RiskMgmt.getConsecutiveLossAdjustment]
    norm_num [RiskMgmt.initialStats]
  have hml : (RiskMgmt.calculateEnhancedRiskParams RiskMgmt.defaultConfig
      RiskMgmt.initialStats exampleCandidate.symbol exampleCandidate.signalType
      exampleCandidate.entryPrice (exampleCandidate.confidence : ℚ) 1
      10000).maxLossPercentage = 16/25 := by
    simp only [RiskMgmt.calculateEnhancedRiskParams, hbase, hconf, hadj]
    norm_num [min_def]
  have hstop : ¬ RiskMgmt.shouldStopTrading RiskMgmt.defaultConfig RiskMgmt.initialStats := by
    rw [RiskMgmt.shouldStopTrading]
    norm_num [RiskMgmt.initialStats]
  rw [RiskMgmt.validateSignalRisk]
  rw [hrr] at *
  simp [hrr, hml, hstop]
  norm_num

theorem example_conflicts :
    checkForConflicts (getActiveSignals exampleStore) exampleCandidate =
      [exampleHigh, exampleLow] := by
  have hact : getActiveSignals exampleStore = [exampleHigh, exampleLow] := by
    simp [getActiveSignals, exampleStore, exampleHigh, exampleLow]
  have hA : conflictsWith exampleCandidate exampleHigh := by
    refine ⟨rfl, Or.inr ⟨by norm_num [exampleHigh], ?_⟩⟩
    norm_num [exampleHigh, exampleCandidate, abs_of_nonneg, abs_of_nonpos]
  have hB : conflictsWith exampleCandidate exampleLow := by
    refine ⟨rfl, Or.inr ⟨by norm_num [exampleLow], ?_⟩⟩
    norm_num [exampleLow, exampleCandidate, abs_of_nonneg, abs_of_nonpos]
  rw [hact, checkForConflicts, if_pos hA, checkForConflicts, if_pos hB, checkForConflicts]

end Manager

/-- Witness for C2: the candidate (confidence 70) beats the low-confidence
conflict (60), so it is created despite also conflicting with the
high-confidence signal (90). -/
theorem C2_witness :
    (Manager.createSignalWithConflictPrevention RiskMgmt.defaultConfig
      RiskMgmt.initialStats Manager.exampleStore Manager.exampleCandidate).1.isSome := by
  apply (C2_conflict_resolution RiskMgmt.defaultConfig RiskMgmt.initialStats
    Manager.exampleStore Manager.exampleCandidate Manager.exampleCandidate_validation
    (by rw [Manager.example_conflicts]; exact fun h => List.noConfusion h)).1.mpr
  refine ⟨Manager.exampleLow, ?_, ?_⟩
  · rw [Manager.example_conflicts]
    exact List.mem_cons_of_mem _ (List.mem_cons_self _ _)
  · exact Or.inl (by norm_num [Manager.exampleCandidate, Manager.exampleLow])

/-- C2 (counterexample to the original claim): the original claim requires the
candidate's confidence to exceed EVERY conflicting signal's confidence, else
rejection with no mutation.  Concretely, a confidence-70 candidate conflicts
with active signals of confidence 90 and 60; because it beats the 60 one, it
is created anyway, and the confidence-90 signal is deactivated with a REPLACED
result. -/
theorem C2_counterexample_existential_acceptance :
    Manager.checkForConflicts (Manager.getActiveSignals Manager.exampleStore)
      Manager.exampleCandidate = [Manager.exampleHigh, Manager.exampleLow] ∧
    Manager.exampleCandidate.confidence < Manager.exampleHigh.confidence ∧
    (Manager.createSignalWithConflictPrevention RiskMgmt.defaultConfig
      RiskMgmt.initialStats Manager.exampleStore Manager.exampleCandidate).1.isSome = true ∧
    Manager.deactivateConflictingSignals [Manager.exampleHigh, Manager.exampleLow]
      Manager.exampleStore =
      { signals :=
          [{ id := 1, symbol := "V75", signalType := .BUY, entryPrice := 100
             confidence := 90, priority := some 2, isActive := false, replaced := true
             exitPrice := some 100 },
           { id := 2, symbol := "V75", signalType := .BUY, entryPrice := 201/2
             confidence := 60, priority := some 3, isActive := false, replaced := true
             exitPrice := some (201/2) }]
        nextId := 3 } := by
  have heq := Manager.create_valid_conflicts RiskMgmt.defaultConfig RiskMgmt.initialStats
    Manager.exampleStore Manager.exampleCandidate Manager.exampleHigh [Manager.exampleLow]
    Manager.exampleCandidate_validation Manager.example_conflicts
  have hbeats : Manager.beats Manager.exampleCandidate Manager.exampleLow :=
    Or.inl (by norm_num [Manager.exampleCandidate, Manager.exampleLow])
  have hs : Manager.shouldCreateDespiteConflicts Manager.exampleCandidate
      [Manager.exampleHigh, Manager.exampleLow] = true :=
    (Manager.shouldCreate_iff _ _).mpr
      ⟨Manager.exampleLow, List.mem_cons_of_mem _ (List.mem_cons_self _ _), hbeats⟩
  rw [if_pos hs] at heq
  refine ⟨Manager.example_conflicts,
    by norm_num [Manager.exampleCandidate, Manager.exampleHigh],
    by rw [heq]; rfl, ?_⟩
  simp [Manager.deactivateConflictingSignals, Manager.deactivateOne,
    Manager.exampleStore, Manager.exampleHigh, Manager.exampleLow]

/-- C6: Across every health-check cycle, the tracked peak profit stored for a
monitored signal is exactly `max (previous peak) (current profit)` — on every
branch of `checkAndGenerateAlerts`, alerting or silent — and is therefore
monotonically non-decreasing between consecutive cycles of the signal's life. -/
theorem C6_peak_profit_monotone (signal : Tactical.SignalInfo) (now : ℚ)
    (ls : Option Tactical.LastAlertState) (health : Tactical.HealthStatus) :
    Tactical.peakOf ls ≤
      ((Tactical.checkAndGenerateAlerts signal now ls health).2).peakProfit ∧
    ((Tactical.checkAndGenerateAlerts signal now ls health).2).peakProfit =
      max (Tactical.peakOf ls) (Tactical.profitPercentOf signal health.currentPrice) := by
  have h : ((Tactical.checkAndGenerateAlerts signal now ls health).2).peakProfit =
      max (Tactical.peakOf ls) (Tactical.profitPercentOf signal health.currentPrice) := by
    simp only [Tactical.checkAndGenerateAlerts]
    split_ifs <;>
      simp [Tactical.updateSignalStateOnly, Tactical.alertState]
  exact ⟨h ▸ le_max_left _ _, h⟩

/-- C7: For every signal, an alert whose type is not INVALIDATED is emitted
only when at least the throttle interval (5 minutes) has passed since the
last emitted alert; an INVALIDATED health status emits its alert immediately,
bypassing the throttle; every emission stamps the state with the emission
time; and a cycle that emits no alert still updates the per-signal alert
state silently, preserving the last emission time. -/
theorem C7_throttle_except_invalidated (signal : Tactical.SignalInfo) (now : ℚ)
    (ls : Option Tactical.LastAlertState) (health : Tactical.HealthStatus) :
    (∀ a, (Tactical.checkAndGenerateAlerts signal now ls health).1 = some a →
      a.alertType ≠ Tactical.AlertType.INVALIDATED →
      ∀ t, ls.bind (·.lastTelegramAlert) = some t →
        Tactical.TELEGRAM_THROTTLE_INTERVAL ≤ now - t) ∧
    (health.status = Tactical.HealthState.INVALIDATED →
      (Tactical.checkAndGenerateAlerts signal now ls health).1 =
        some { signalId := signal.id, alertType := .INVALIDATED, urgency := .HIGH
               timestamp := now }) ∧
    (∀ a, (Tactical.checkAndGenerateAlerts signal now ls health).1 = some a →
      ((Tactical.checkAndGenerateAlerts signal now ls health).2).lastTelegramAlert =
        some now) ∧
    ((Tactical.checkAndGenerateAlerts signal now ls health).1 = none →
      ((Tactical.checkAndGenerateAlerts signal now ls health).2).lastTelegramAlert =
        ls.bind (·.lastTelegramAlert) ∧
      ((Tactical.checkAndGenerateAlerts signal now ls health).2).status = health.status) := by
  have hwf : ∀ {t : ℚ}, Tactical.withinThrottle now (some t) ≠ true →
      Tactical.TELEGRAM_THROTTLE_INTERVAL ≤ now - t := by
    intro t h
    by_cases hlt : now - t < Tactical.TELEGRAM_THROTTLE_INTERVAL
    · exact absurd (by rw [Tactical.withinThrottle]; simp [hlt]) h
    · exact le_of_not_lt hlt
  simp only [Tactical.checkAndGenerateAlerts]
  split_ifs with hthr hinv hweak hdet
  · -- throttled skip: no alert, silent update
    refine ⟨?_, ?_, ?_, ?_⟩
    · intro a ha
      cases ha
    · intro hstat
      exact absurd hstat hthr.1
    · intro a ha
      cases ha
    · intro _
      exact ⟨by simp [Tactical.updateSignalStateOnly], by simp [Tactical.updateSignalStateOnly]⟩
  · -- invalidated alert
    refine ⟨?_, fun _ => rfl, ?_, ?_⟩
    · intro a ha hne
      cases ha
      exact absurd rfl hne
    · intro a _
      simp [Tactical.alertState]
    · intro h
      cases h
  · -- weakening alert: throttle must have expired
    have hstat : health.status ≠ Tactical.HealthState.INVALIDATED :=
      fun h => hinv (Or.inr (Or.inr h))
    refine ⟨?_, ?_, ?_, ?_⟩
    · intro a _ _ t ht
      have hw : Tactical.withinThrottle now (ls.bind fun x => x.lastTelegramAlert) ≠ true :=
        fun hwt => hthr ⟨hstat, hwt⟩
      rw [ht] at hw
      exact hwf hw
    · intro h
      exact absurd (Or.inr (Or.inr h)) hinv
    · intro a _
      simp [Tactical.alertState]
    · intro h
      cases h
  · -- profit-protection alert: throttle must have expired
    have hstat : health.status ≠ Tactical.HealthState.INVALIDATED :=
      fun h => hinv (Or.inr (Or.inr h))
    refine ⟨?_, ?_, ?_, ?_⟩
    · intro a _ _ t ht
      have hw : Tactical.withinThrottle now (ls.bind fun x => x.lastTelegramAlert) ≠ true :=
        fun hwt => hthr ⟨hstat, hwt⟩
      rw [ht] at hw
      exact hwf hw
    · intro h
      exact absurd (Or.inr (Or.inr h)) hinv
    · intro a _
      simp [Tactical.alertState]
    · intro h
      cases h
  · -- silent monitoring
    refine ⟨?_, ?_, ?_, ?_⟩
    · intro a ha
      cases ha
    · intro h
      exact absurd (Or.inr (Or.inr h)) hinv
    · intro a ha
      cases ha
    · intro _
      exact ⟨by simp [Tactical.updateSignalStateOnly], by simp [Tactical.updateSignalStateOnly]⟩

namespace Tactical

theorem example_warning_emitted :
    (checkAndGenerateAlerts exampleSignal 600000 (some examplePrevState) exampleHealth).1 =
      some { signalId := 1, alertType := .WARNING, urgency := .MEDIUM
             timestamp := 600000 } := by
  have hpp : profitPercentOf exampleSignal exampleHealth.currentPrice = 2 := by
    rw [profitPercentOf]
    norm_num [exampleSignal, exampleHealth]
  have hw : withinThrottle 600000 ((some examplePrevState).bind
      fun x => x.lastTelegramAlert) = false := by
    rw [examplePrevState]
    rw [Option.bind]
    norm_num [withinThrottle, TELEGRAM_THROTTLE_INTERVAL]
  have hni : ¬ isSignalInvalidated
      (profitPercentOf exampleSignal exampleHealth.currentPrice) exampleHealth := by
    rw [hpp, isSignalInvalidated]
    push_neg
    exact ⟨by norm_num, by norm_num [exampleHealth], by simp [exampleHealth]⟩
  have hwk : isSignalWeakening (some examplePrevState)
      (profitPercentOf exampleSignal exampleHealth.currentPrice) exampleHealth := by
    rw [hpp, isSignalWeakening]
    norm_num [examplePrevState]
  simp only [checkAndGenerateAlerts]
  rw [if_neg (by rw [hw]; rintro ⟨_, h⟩; cases h), if_neg hni, if_pos hwk]
  simp [exampleSignal]

end Tactical

/-- Witness for C7: with the previous alert emitted at time 0 and a WARNING
emitted at time 600000 (10 minutes later), the throttle interval has indeed
elapsed. -/
theorem C7_witness :
    Tactical.TELEGRAM_THROTTLE_INTERVAL ≤ (600000 : ℚ) - 0 := by
  have h := (C7_throttle_except_invalidated Tactical.exampleSignal 600000
    (some Tactical.examplePrevState) Tactical.exampleHealth).1
    { signalId := 1, alertType := .WARNING, urgency := .MEDIUM, timestamp := 600000 }
    Tactical.example_warning_emitted
    (by rintro h; cases h) 0
    (by rw [Tactical.examplePrevState]; rfl)
  exact h

theorem iteBool_eq_true_iff (c : Prop) [Decidable c] :
    ((if c then true else false) = true) ↔ c := by
  by_cases hc : c <;> simp [hc]

namespace Tactical

theorem calculateProfitProtection_current (sig : SignalInfo) (cp : ℚ) (sp : Option ℚ) :
    (calculateProfitProtection sig cp sp).currentProfitPercent =
      calculateProfitPercent sig.signalType sig.entryPrice cp := by
  simp only [calculateProfitProtection]
  split_ifs <;> rfl

theorem calculateProfitProtection_peak (sig : SignalInfo) (cp : ℚ) (sp : Option ℚ) :
    (calculateProfitProtection sig cp sp).peakProfitPercent =
      match sp with
      | some p => max p (calculateProfitPercent sig.signalType sig.entryPrice cp)
      | none => calculateProfitPercent sig.signalType sig.entryPrice cp := by
  simp only [calculateProfitProtection]
  split_ifs <;> rfl

theorem calculateProfitProtection_drawdown (sig : SignalInfo) (cp : ℚ) (sp : Option ℚ) :
    (calculateProfitProtection sig cp sp).drawdownFromPeak =
      (calculateProfitProtection sig cp sp).peakProfitPercent -
      (calculateProfitProtection sig cp sp).currentProfitPercent := by
  simp only [calculateProfitProtection]
  split_ifs <;> rfl

/-- In the peak ≥ 5% tier, 75% of the peak is locked, and the recommendation
fires iff the drawdown from peak exceeds 1% or the current profit fell below
the locked level. -/
theorem protection_huge (sig : SignalInfo) (cp : ℚ) (sp : Option ℚ)
    (h5 : (calculateProfitProtection sig cp sp).peakProfitPercent ≥ 5) :
    (calculateProfitProtection sig cp sp).profitTier = Tier.HUGE ∧
    (sig.signalType = .BUY →
      (calculateProfitProtection sig cp sp).recommendedStopLoss =
        sig.entryPrice *
          (1 + (calculateProfitProtection sig cp sp).peakProfitPercent * (75/100) / 100)) ∧
    ((calculateProfitProtection sig cp sp).shouldProtect = true ↔
      ((calculateProfitProtection sig cp sp).drawdownFromPeak > 1 ∨
        (calculateProfitProtection sig cp sp).currentProfitPercent <
          (calculateProfitProtection sig cp sp).peakProfitPercent * (75/100))) := by
  rw [calculateProfitProtection_peak] at h5
  simp only [calculateProfitProtection]
  rw [if_pos h5]
  refine ⟨rfl, fun hb => by rw [if_pos hb], ?_⟩
  rw [iteBool_eq_true_iff, PROFIT_DETERIORATION_THRESHOLD]

/-- In the 3% ≤ peak < 5% tier, 60% of the peak is locked. -/
theorem protection_large (sig : SignalInfo) (cp : ℚ) (sp : Option ℚ)
    (h5 : ¬ (calculateProfitProtection sig cp sp).peakProfitPercent ≥ 5)
    (h3 : (calculateProfitProtection sig cp sp).peakProfitPercent ≥ 3) :
    (calculateProfitProtection sig cp sp).profitTier = Tier.LARGE ∧
    (sig.signalType = .BUY →
      (calculateProfitProtection sig cp sp).recommendedStopLoss =
        sig.entryPrice *
          (1 + (calculateProfitProtection sig cp sp).peakProfitPercent * (60/100) / 100)) ∧
    ((calculateProfitProtection sig cp sp).shouldProtect = true ↔
      ((calculateProfitProtection sig cp sp).drawdownFromPeak > 1 ∨
        (calculateProfitProtection sig cp sp).currentProfitPercent <
          (calculateProfitProtection sig cp sp).peakProfitPercent * (60/100))) := by
  rw [calculateProfitProtection_peak] at h5 h3
  simp only [calculateProfitProtection]
  rw [if_neg h5, if_pos h3]
  refine ⟨rfl, fun hb => by rw [if_pos hb], ?_⟩
  rw [iteBool_eq_true_iff, PROFIT_DETERIORATION_THRESHOLD]

/-- In the 2% ≤ peak < 3% tier, the recommendation is breakeven + 1% and
fires iff current profit fell below 1%. -/
theorem protection_medium (sig : SignalInfo) (cp : ℚ) (sp : Option ℚ)
    (h5 : ¬ (calculateProfitProtection sig cp sp).peakProfitPercent ≥ 5)
    (h3 : ¬ (calculateProfitProtection sig cp sp).peakProfitPercent ≥ 3)
    (h2 : (calculateProfitProtection sig cp sp).peakProfitPercent ≥ 2) :
    (calculateProfitProtection sig cp sp).profitTier = Tier.MEDIUM ∧
    (sig.signalType = .BUY →
      (calculateProfitProtection sig cp sp).recommendedStopLoss =
        sig.entryPrice * (101/100)) ∧
    ((calculateProfitProtection sig cp sp).shouldProtect = true ↔
      (calculateProfitProtection sig cp sp).currentProfitPercent < 1) := by
  rw [calculateProfitProtection_peak] at h5 h3 h2
  simp only [calculateProfitProtection]
  rw [if_neg h5, if_neg h3, if_pos h2]
  refine ⟨rfl, fun hb => by rw [if_pos hb], ?_⟩
  rw [iteBool_eq_true_iff]

/-- In the 1% ≤ peak < 2% tier, the recommendation is breakeven + 0.3% and
fires iff current profit fell below 0.5%. -/
theorem protection_small (sig : SignalInfo) (cp : ℚ) (sp : Option ℚ)
    (h5 : ¬ (calculateProfitProtection sig cp sp).peakProfitPercent ≥ 5)
    (h3 : ¬ (calculateProfitProtection sig cp sp).peakProfitPercent ≥ 3)
    (h2 : ¬ (calculateProfitProtection sig cp sp).peakProfitPercent ≥ 2)
    (h1 : (calculateProfitProtection sig cp sp).peakProfitPercent ≥ 1) :
    (calculateProfitProtection sig cp sp).profitTier = Tier.SMALL ∧
    (sig.signalType = .BUY →
      (calculateProfitProtection sig cp sp).recommendedStopLoss =
        sig.entryPrice * (1003/1000)) ∧
    ((calculateProfitProtection sig cp sp).shouldProtect = true ↔
      (calculateProfitProtection sig cp sp).currentProfitPercent < 1/2) := by
  rw [calculateProfitProtection_peak] at h5 h3 h2 h1
  simp only [calculateProfitProtection]
  rw [if_neg h5, if_neg h3, if_neg h2, if_pos h1]
  refine ⟨rfl, fun hb => by rw [if_pos hb], ?_⟩
  rw [iteBool_eq_true_iff]

/-- A PROFIT_PROTECTION alert is emitted only when the deterioration test
passes (peak ≥ 2%, drop from peak > 2.5%, remaining profit > 0.5%) and no
profit warning was sent before. -/
theorem profit_protection_alert_requires (sig : SignalInfo) (now : ℚ)
    (ls : Option LastAlertState) (health : HealthStatus) (a : TacticalAlert)
    (ha : (checkAndGenerateAlerts sig now ls health).1 = some a)
    (hty : a.alertType = AlertType.PROFIT_PROTECTION) :
    isProfitDeteriorating (profitPercentOf sig health.currentPrice)
      (max (peakOf ls) (profitPercentOf sig health.currentPrice)) ∧
    ls.bind (·.lastProfitWarning) = none := by
  simp only [checkAndGenerateAlerts] at ha
  split_ifs at ha with h1 h2 h3 h4
  · simp only [Option.some.injEq] at ha
    rw [← ha] at hty
    exact absurd hty (by simp)
  · simp only [Option.some.injEq] at ha
    rw [← ha] at hty
    exact absurd hty (by simp)
  · exact h4

theorem example_retrace_current :
    calculateProfitPercent exampleSignal.signalType exampleSignal.entryPrice 104 = 4 := by
  rw [calculateProfitPercent]
  norm_num [exampleSignal]

theorem example_retrace_peak :
    (calculateProfitProtection exampleSignal 104 (some 6)).peakProfitPercent = 6 := by
  rw [calculateProfitProtection_peak]
  rw [example_retrace_current]
  norm_num [max_def]

theorem example_retrace_warning :
    (checkAndGenerateAlerts exampleSignal 0 (some exampleRetraceState)
      exampleRetraceHealth).1 =
      some { signalId := 1, alertType := .WARNING, urgency := .MEDIUM, timestamp := 0 } := by
  have hpp : profitPercentOf exampleSignal exampleRetraceHealth.currentPrice = 4 := by
    rw [profitPercentOf]
    norm_num [exampleSignal, exampleRetraceHealth]
  have hni : ¬ isSignalInvalidated
      (profitPercentOf exampleSignal exampleRetraceHealth.currentPrice)
      exampleRetraceHealth := by
    rw [hpp, isSignalInvalidated]
    push_neg
    exact ⟨by norm_num, by norm_num [exampleRetraceHealth],
      by simp [exampleRetraceHealth]⟩
  have hwk : isSignalWeakening (some exampleRetraceState)
      (profitPercentOf exampleSignal exampleRetraceHealth.currentPrice)
      exampleRetraceHealth := by
    rw [hpp, isSignalWeakening]
    norm_num [exampleRetraceState]
  simp only [checkAndGenerateAlerts]
  rw [if_neg ?hthr, if_neg hni, if_pos hwk]
  · simp [exampleSignal]
  case hthr =>
    rintro ⟨_, hw⟩
    rw [exampleRetraceState] at hw
    rw [Option.bind] at hw
    simp [withinThrottle] at hw

end Tactical

/-- C5 (amended): The tiered protection recommendation is computed against
peak (not current) profit: peak ≥ 5% locks 75% of peak, peak ≥ 3% locks 60%,
peak ≥ 2% recommends breakeven+1%, peak ≥ 1% recommends breakeven+0.3%.  The
recommendation fires when the drawdown from peak exceeds 1% OR current profit
is below the locked level (top two tiers), below 1% (≥2% tier), or below 0.5%
(≥1% tier) — not only when current profit has fallen below the locked level.
A PROFIT_PROTECTION alert additionally requires a drop of more than 2.5% from
a peak of at least 2% with remaining profit above 0.5% and no prior profit
warning; in the scenario entry 100, BUY, peak 6%, retrace to 4%, the
recommended stop-loss is entry×1.045 but the single alert emitted for the
transition is a WARNING (weakening), not PROFIT_PROTECTION. -/
theorem C5_profit_protection_tiers (sig : Tactical.SignalInfo) (currentPrice : ℚ)
    (storedPeak : Option ℚ) :
    ((Tactical.calculateProfitProtection sig currentPrice storedPeak).peakProfitPercent ≥ 5 →
      (Tactical.calculateProfitProtection sig currentPrice storedPeak).profitTier =
        Tactical.Tier.HUGE ∧
      (sig.signalType = .BUY →
        (Tactical.calculateProfitProtection sig currentPrice storedPeak).recommendedStopLoss =
          sig.entryPrice * (1 + (Tactical.calculateProfitProtection sig currentPrice
            storedPeak).peakProfitPercent * (75/100) / 100)) ∧
      ((Tactical.calculateProfitProtection sig currentPrice storedPeak).shouldProtect = true ↔
        ((Tactical.calculateProfitProtection sig currentPrice storedPeak).drawdownFromPeak > 1 ∨
          (Tactical.calculateProfitProtection sig currentPrice storedPeak).currentProfitPercent <
            (Tactical.calculateProfitProtection sig currentPrice
              storedPeak).peakProfitPercent * (75/100)))) ∧
    (¬ (Tactical.calculateProfitProtection sig currentPrice storedPeak).peakProfitPercent ≥ 5 →
      (Tactical.calculateProfitProtection sig currentPrice storedPeak).peakProfitPercent ≥ 3 →
      (Tactical.calculateProfitProtection sig currentPrice storedPeak).profitTier =
        Tactical.Tier.LARGE ∧
      ((Tactical.calculateProfitProtection sig currentPrice storedPeak).shouldProtect = true ↔
        ((Tactical.calculateProfitProtection sig currentPrice storedPeak).drawdownFromPeak > 1 ∨
          (Tactical.calculateProfitProtection sig currentPrice storedPeak).currentProfitPercent <
            (Tactical.calculateProfitProtection sig currentPrice
              storedPeak).peakProfitPercent * (60/100)))) ∧
    (¬ (Tactical.calculateProfitProtection sig currentPrice storedPeak).peakProfitPercent ≥ 5 →
      ¬ (Tactical.calculateProfitProtection sig currentPrice storedPeak).peakProfitPercent ≥ 3 →
      (Tactical.calculateProfitProtection sig currentPrice storedPeak).peakProfitPercent ≥ 2 →
      (Tactical.calculateProfitProtection sig currentPrice storedPeak).profitTier =
        Tactical.Tier.MEDIUM ∧
      (sig.signalType = .BUY →
        (Tactical.calculateProfitProtection sig currentPrice storedPeak).recommendedStopLoss =
          sig.entryPrice * (101/100)) ∧
      ((Tactical.calculateProfitProtection sig currentPrice storedPeak).shouldProtect = true ↔
        (Tactical.calculateProfitProtection sig currentPrice
          storedPeak).currentProfitPercent < 1)) ∧
    (¬ (Tactical.calculateProfitProtection sig currentPrice storedPeak).peakProfitPercent ≥ 5 →
      ¬ (Tactical.calculateProfitProtection sig currentPrice storedPeak).peakProfitPercent ≥ 3 →
      ¬ (Tactical.calculateProfitProtection sig currentPrice storedPeak).peakProfitPercent ≥ 2 →
      (Tactical.calculateProfitProtection sig currentPrice storedPeak).peakProfitPercent ≥ 1 →
      (Tactical.calculateProfitProtection sig currentPrice storedPeak).profitTier =
        Tactical.Tier.SMALL ∧
      (sig.signalType = .BUY →
        (Tactical.calculateProfitProtection sig currentPrice storedPeak).recommendedStopLoss =
          sig.entryPrice * (1003/1000)) ∧
      ((Tactical.calculateProfitProtection sig currentPrice storedPeak).shouldProtect = true ↔
        (Tactical.calculateProfitProtection sig currentPrice
          storedPeak).currentProfitPercent < 1/2)) ∧
    (∀ (now : ℚ) (ls : Option Tactical.LastAlertState) (health : Tactical.HealthStatus)
      (a : Tactical.TacticalAlert),
      (Tactical.checkAndGenerateAlerts sig now ls health).1 = some a →
      a.alertType = Tactical.AlertType.PROFIT_PROTECTION →
      Tactical.isProfitDeteriorating (Tactical.profitPercentOf sig health.currentPrice)
        (max (Tactical.peakOf ls) (Tactical.profitPercentOf sig health.currentPrice)) ∧
      ls.bind (·.lastProfitWarning) = none) := by
  refine ⟨Tactical.protection_huge sig currentPrice storedPeak, ?_, ?_, ?_, ?_⟩
  · intro h5 h3
    obtain ⟨ht, _, hiff⟩ := Tactical.protection_large sig currentPrice storedPeak h5 h3
    exact ⟨ht, hiff⟩
  · exact Tactical.protection_medium sig currentPrice storedPeak
  · exact Tactical.protection_small sig currentPrice storedPeak
  · exact fun now ls health a =>
      Tactical.profit_protection_alert_requires sig now ls health a

/-- Witness for C5: in the scenario (entry 100, BUY, peak 6%, retrace to 4%)
the tier is HUGE and the recommended stop-loss is 104.5 = entry×1.045. -/
theorem C5_witness :
    (Tactical.calculateProfitProtection Tactical.exampleSignal 104 (some 6)).profitTier =
      Tactical.Tier.HUGE ∧
    (Tactical.calculateProfitProtection Tactical.exampleSignal 104
      (some 6)).recommendedStopLoss = 209/2 := by
  have h5 : (Tactical.calculateProfitProtection Tactical.exampleSignal 104
      (some 6)).peakProfitPercent ≥ 5 := by
    rw [Tactical.example_retrace_peak]
    norm_num
  obtain ⟨ht, hrsl, _⟩ :=
    (C5_profit_protection_tiers Tactical.exampleSignal 104 (some 6)).1 h5
  refine ⟨ht, ?_⟩
  rw [hrsl (by rw [Tactical.exampleSignal])]
  rw [Tactical.example_retrace_peak]
  norm_num [Tactical.exampleSignal]

/-- C5 (counterexample to the original claim): with peak 10% and current
profit 8.5% the protection recommendation fires although the current profit
is still above the locked level (7.5%), refuting "fires only when current
profit has fallen below the tier's locked level"; and in the claim's own
scenario (peak 6%, retrace to 4%) the stop-loss recommendation is indeed
entry×1.045 = 104.5, but the alert emitted for that transition by
`checkAndGenerateAlerts` is a WARNING, not a PROFIT_PROTECTION alert — the
deterioration test requires a drop of more than 2.5%, and 6% → 4% is only 2%. -/
theorem C5_counterexample_protection_conditions :
    (Tactical.calculateProfitProtection Tactical.exampleSignal 104
      (some 6)).recommendedStopLoss = 209/2 ∧
    (Tactical.calculateProfitProtection Tactical.exampleSignal 104
      (some 6)).shouldProtect = true ∧
    (Tactical.calculateProfitProtection Tactical.exampleSignal (217/2)
      (some 10)).shouldProtect = true ∧
    (Tactical.calculateProfitProtection Tactical.exampleSignal (217/2)
      (some 10)).peakProfitPercent * (75/100) <
      (Tactical.calculateProfitProtection Tactical.exampleSignal (217/2)
        (some 10)).currentProfitPercent ∧
    (Tactical.checkAndGenerateAlerts Tactical.exampleSignal 0
      (some Tactical.exampleRetraceState) Tactical.exampleRetraceHealth).1 =
      some { signalId := 1, alertType := Tactical.AlertType.WARNING
             urgency := Tactical.Urgency.MEDIUM, timestamp := 0 } := by
  have hcur1 :
      (Tactical.calculateProfitProtection Tactical.exampleSignal 104
        (some 6)).currentProfitPercent = 4 := by
    rw [Tactical.calculateProfitProtection_current, Tactical.example_retrace_current]
  have h5a : (Tactical.calculateProfitProtection Tactical.exampleSignal 104
      (some 6)).peakProfitPercent ≥ 5 := by
    rw [Tactical.example_retrace_peak]
    norm_num
  obtain ⟨_, hrsl1, hiff1⟩ := Tactical.protection_huge Tactical.exampleSignal 104 (some 6) h5a
  have hcur2 : Tactical.calculateProfitPercent Tactical.exampleSignal.signalType
      Tactical.exampleSignal.entryPrice (217/2) = 17/2 := by
    rw [Tactical.calculateProfitPercent]
    norm_num [Tactical.exampleSignal]
  have hpk2 : (Tactical.calculateProfitProtection Tactical.exampleSignal (217/2)
      (some 10)).peakProfitPercent = 10 := by
    rw [Tactical.calculateProfitProtection_peak, hcur2]
    norm_num [max_def]
  have hcur2' : (Tactical.calculateProfitProtection Tactical.exampleSignal (217/2)
      (some 10)).currentProfitPercent = 17/2 := by
    rw [Tactical.calculateProfitProtection_current, hcur2]
  have h5b : (Tactical.calculateProfitProtection Tactical.exampleSignal (217/2)
      (some 10)).peakProfitPercent ≥ 5 := by
    rw [hpk2]
    norm_num
  obtain ⟨_, _, hiff2⟩ := Tactical.protection_huge Tactical.exampleSignal (217/2) (some 10) h5b
  refine ⟨?_, ?_, ?_, ?_, Tactical.example_retrace_warning⟩
  · rw [hrsl1 (by rw [Tactical.exampleSignal])]
    rw [Tactical.example_retrace_peak]
    norm_num [Tactical.exampleSignal]
  · refine hiff1.mpr (Or.inl ?_)
    rw [Tactical.calculateProfitProtection_drawdown, Tactical.example_retrace_peak, hcur1]
    norm_num
  · refine hiff2.mpr (Or.inl ?_)
    rw [Tactical.calculateProfitProtection_drawdown, hpk2, hcur2']
    norm_num
  · rw [hpk2, hcur2']
    norm_num

/-- C1: For every generated signal that is persisted (not HOLD), a BUY has
`stopLoss < entryPrice < takeProfit` and a SELL has
`takeProfit < entryPrice < stopLoss`, on both level-generation paths.

This fails on the `ConsolidatedSignalGenerator.calculateRiskLevels` path: the
function ignores the direction, so a persisted SELL signal (here: entry 100,
confidence 80, volatility 0.01, timeframe SWING, which passes both persistence
gates `confidence ≥ 75` and `riskReward ≥ 2.5`) receives BUY-shaped levels
with `stopLossPrice < entryPrice < takeProfitPrice`, violating the required
SELL ordering.  The `TechnicalAnalysisService.generateTradeLevels` path, by
contrast, is direction-aware. -/
theorem C1_consolidated_sell_levels_not_reversed :
    (Consolidated.calculateRiskLevels 100 80 (1/100) .SWING).stopLossPrice < 100 ∧
    100 < (Consolidated.calculateRiskLevels 100 80 (1/100) .SWING).takeProfitPrice ∧
    Consolidated.MIN_CONFIDENCE ≤ 80 ∧
    Consolidated.MIN_RISK_REWARD ≤
      (Consolidated.calculateRiskLevels 100 80 (1/100) .SWING).riskReward ∧
    (Technical.generateTradeLevels 100 .SELL 10 5).takeProfit < 100 ∧
    100 < (Technical.generateTradeLevels 100 .SELL 10 5).stopLoss := by
  norm_num [Consolidated.calculateRiskLevels, Consolidated.slMultiplier,
    Consolidated.tpMultiplier, Consolidated.MIN_CONFIDENCE, Consolidated.MIN_RISK_REWARD,
    Technical.generateTradeLevels, round4, jsRound]
